import Mathlib

/-!
# deviceQuery with CSV output: embedding and verified properties

Shallow embedding of `Outputcsv_deviceQuery.cpp`, in the build with
`CUDART_VERSION >= 5000` on a non-Windows platform.

* The calls of the CUDA runtime and of `helper_cuda.h` are answered by an `Env` record:
  a status for each checked or unchecked call and the value the call stores.
* Standard output is the list of the texts written by the successive `printf` calls
  (`checkCudaErrors` reports on standard error, which is not recorded).
  `devicequery.csv` is the list of the rows streamed into `myfile`; opening the
  stream truncates the file, and the file system is taken to accept the writes.
* `int` values are `Int` and `size_t` values are `Nat`, within their machine ranges;
  the device count is a `Nat`.  `float` values are exact binary fractions rounded to
  24 significant bits, to nearest with ties to even (`F32`).
* An access that C leaves undefined is made explicit and ends the run as
  `Outcome.undefinedBehaviour`: a `%s` argument read from `sComputeMode` at a position
  holding no label (the item written is then `Out.unspecified`), and an access to
  `prop[64]` or `gpuid[64]` outside the 64 slots or to a slot never written.
* The product `_ConvertSMVer2Cores(..) * multiProcessorCount` is an `int` product and
  wraps modulo `2^32` (`mulInt`).
* `exit` is the field `outcome` becoming `some _`; every later phase leaves a state
  with an outcome untouched.

The definitions come first, then the lemmas, then one theorem for each claim `C1`..`C10`.
-/

namespace DeviceQuery

/-! ## Text conversions of `printf` and `std::ostream` -/

/-- Decimal text of an unsigned value: `%zu`, `%llu`, and `myfile << size_t`. -/
def fmtU (n : Nat) : String := Nat.repr n

/-- Decimal text of a signed value: `%d`, and `myfile << int`. -/
def fmtD (i : Int) : String :=
  if i < 0 then "-" ++ Nat.repr i.natAbs else Nat.repr i.natAbs

/-- Left padding with the character `0` up to width `w`. -/
def zeroPad (w : Nat) (s : String) : String :=
  String.mk (List.replicate (w - s.length) '0') ++ s

/-- Conversion `%03d`: minimum width 3, zero padded, the sign counted in the width. -/
def fmt03D (i : Int) : String :=
  if i < 0 then "-" ++ zeroPad 2 (Nat.repr i.natAbs) else zeroPad 3 (Nat.repr i.natAbs)

/-- Conversion of a flag tested with `? "Yes" : "No"`. -/
def yesNo (flag : Bool) : String := if flag then "Yes" else "No"

/-- Conversion of a flag tested with `? "Enabled" : "Disabled"`. -/
def enabledDisabled (flag : Bool) : String := if flag then "Enabled" else "Disabled"

/-! ## Single precision values -/

/-- Number of binary digits of `n`, computed with `fuel` halvings at most. -/
def bitLen : Nat → Nat → Nat
  | 0, _ => 0
  | fuel + 1, n => if n = 0 then 0 else bitLen fuel (n / 2) + 1

/-- Quotient `num / den` rounded to the nearest integer, ties to the even one. -/
def rne (num den : Nat) : Nat :=
  let q := num / den
  let r := num % den
  if den < 2 * r ∨ (2 * r = den ∧ q % 2 = 1) then q + 1 else q

/-- Rounding of a natural number to 24 significant binary digits (nearest, ties to even):
the significand of a `float`. -/
def roundSig24 (n : Nat) : Nat :=
  let len := bitLen n n
  if len ≤ 24 then n else rne n (2 ^ (len - 24)) * 2 ^ (len - 24)

/-- A finite `float` value `(-1)^neg * num / 2^scale`, where `num` has at most 24
significant binary digits.  All values of the program lie between `2^-43` and
`2^64` in magnitude (or are zero), inside the normal range of the format. -/
structure F32 where
  neg : Bool
  num : Nat
  scale : Nat
  deriving DecidableEq, Repr

/-- Conversion of a `size_t` to `float`. -/
def F32.ofNat (n : Nat) : F32 := ⟨false, roundSig24 n, 0⟩

/-- Conversion of an `int` to `float`. -/
def F32.ofInt (i : Int) : F32 := ⟨decide (i < 0), roundSig24 i.natAbs, 0⟩

/-- Division by the `float` constant `2^k` (exact). -/
def F32.divPow2 (x : F32) (k : Nat) : F32 := ⟨x.neg, x.num, x.scale + k⟩

/-- Product with the positive `float` constant `m / 2^s`, rounded to `float`. -/
def F32.mulConst (x : F32) (m s : Nat) : F32 := ⟨x.neg, roundSig24 (x.num * m), x.scale + s⟩

/-- The constant `1e-3f`, that is `8589935 / 2^33`. -/
def F32.mul1em3 (x : F32) : F32 := x.mulConst 8589935 33

/-- The constant `1e-6f`, that is `8796093 / 2^43`. -/
def F32.mul1em6 (x : F32) : F32 := x.mulConst 8796093 43

/-- Sign text of a value. -/
def F32.sign (x : F32) : String := if x.neg then "-" else ""

/-- Conversion `%.0f`: nearest integer, ties to even. -/
def fmtF0 (x : F32) : String :=
  x.sign ++ Nat.repr (rne x.num (2 ^ x.scale))

/-- Conversion `%0.2f`: two decimals, nearest, ties to even. -/
def fmtF2 (x : F32) : String :=
  let h := rne (x.num * 100) (2 ^ x.scale)
  x.sign ++ Nat.repr (h / 100) ++ "." ++ zeroPad 2 (Nat.repr (h % 100))

/-- Largest `k` with `den * 10^k ≤ num`, searched upwards from `k` (for `den ≤ num`). -/
def expUp (num den : Nat) : Nat → Nat → Nat
  | 0, k => k
  | fuel + 1, k => if den * 10 ^ (k + 1) ≤ num then expUp num den fuel (k + 1) else k

/-- Smallest `k` with `den ≤ num * 10^k`, searched upwards from `k` (for `0 < num < den`). -/
def expDown (num den : Nat) : Nat → Nat → Nat
  | 0, k => k
  | fuel + 1, k => if den ≤ num * 10 ^ k then k else expDown num den fuel (k + 1)

/-- Decimal exponent of the positive fraction `num / den`: the integer `X` with
`10^X ≤ num / den < 10^(X+1)`. -/
def decExp (num den : Nat) : Int :=
  if den ≤ num then (expUp num den num 0 : Nat) else - (expDown num den den 1 : Nat)

/-- Removal of the trailing `0` characters. -/
def stripZeros (l : List Char) : List Char :=
  (l.reverse.dropWhile (fun c => c == '0')).reverse

/-- An integer part followed by the stripped fraction digits, the point omitted when
no fraction digit remains. -/
def withFraction (intPart : String) (frac : List Char) : String :=
  if stripZeros frac = [] then intPart else intPart ++ "." ++ String.mk (stripZeros frac)

/-- Conversion `%g` with precision 6, which `myfile << float` applies: six
significant digits, fixed notation when the decimal exponent lies in `[-4, 6)`,
scientific notation otherwise, trailing zeros removed. -/
def fmtG6 (x : F32) : String :=
  if x.num = 0 then x.sign ++ "0" else
    let den := 2 ^ x.scale
    let e0 := decExp x.num den
    let d0 := if e0 ≤ 5 then rne (x.num * 10 ^ (5 - e0).toNat) den
              else rne x.num (den * 10 ^ (e0 - 5).toNat)
    let e := if d0 = 1000000 then e0 + 1 else e0
    let d := if d0 = 1000000 then 100000 else d0
    if -4 ≤ e ∧ e < 6 then
      let p := (5 - e).toNat
      x.sign ++ withFraction (Nat.repr (d / 10 ^ p)) (zeroPad p (Nat.repr (d % 10 ^ p))).data
    else
      x.sign ++ withFraction (Nat.repr (d / 100000)) (zeroPad 5 (Nat.repr (d % 100000))).data
        ++ "e" ++ (if e < 0 then "-" else "+") ++ zeroPad 2 (Nat.repr e.natAbs)

/-! ## Device snapshot and runtime answers -/

/-- The members of `cudaDeviceProp` that the program reads.  Array members are given
as functions of the index; flags are `int` members tested against zero. -/
structure cudaDeviceProp where
  name : String
  major : Int
  minor : Int
  totalGlobalMem : Nat
  multiProcessorCount : Int
  clockRate : Int
  memoryClockRate : Int
  memoryBusWidth : Int
  l2CacheSize : Int
  maxTexture1D : Int
  maxTexture2D : Nat → Int
  maxTexture3D : Nat → Int
  maxTexture1DLayered : Nat → Int
  maxTexture2DLayered : Nat → Int
  totalConstMem : Nat
  sharedMemPerBlock : Nat
  sharedMemPerMultiprocessor : Nat
  regsPerBlock : Int
  warpSize : Int
  maxThreadsPerMultiProcessor : Int
  maxThreadsPerBlock : Int
  maxThreadsDim : Nat → Int
  maxGridSize : Nat → Int
  memPitch : Nat
  textureAlignment : Nat
  deviceOverlap : Int
  asyncEngineCount : Int
  kernelExecTimeoutEnabled : Int
  integrated : Int
  canMapHostMemory : Int
  surfaceAlignment : Nat
  ECCEnabled : Int
  unifiedAddressing : Int
  managedMemory : Int
  computePreemptionSupported : Int
  cooperativeLaunch : Int
  cooperativeMultiDeviceLaunch : Int
  pciDomainID : Int
  pciBusID : Int
  pciDeviceID : Int
  computeMode : Int

/-- Answers of the CUDA runtime and of `helper_cuda.h` to the calls of one run.
A status is a `cudaError_t`, 0 being `cudaSuccess`.

* `countStatus`, `deviceCount`: result of `cudaGetDeviceCount` and the count it stores;
* `errorString`: `cudaGetErrorString`;
* `driverVersion`, `runtimeVersion`: the codes stored by `cudaDriverGetVersion` and
  `cudaRuntimeGetVersion`;
* `loopProps dev`: status (ignored by the program) and structure content of the
  unchecked `cudaGetDeviceProperties` call of the render loop;
* `peerProps i`: status and structure content of the checked `cudaGetDeviceProperties`
  call of the peer access phase;
* `canAccessPeer a b`: status and stored flag of `cudaDeviceCanAccessPeer`;
* `ConvertSMVer2Cores`: the function `_ConvertSMVer2Cores` of `helper_cuda.h`. -/
structure Env where
  argv0 : String
  countStatus : Int
  deviceCount : Nat
  errorString : Int → String
  driverVersion : Int
  runtimeVersion : Int
  loopProps : Nat → Int × cudaDeviceProp
  peerProps : Nat → Int × cudaDeviceProp
  canAccessPeer : Nat → Nat → Int × Int
  ConvertSMVer2Cores : Int → Int → Int

/-- Product of two `int` values as the compiled program computes it: the mathematical
product reduced to the 32-bit two's complement range. -/
def mulInt (a b : Int) : Int := (a * b + 2147483648) % 4294967296 - 2147483648

/-- Expression `v / 1000` of C (quotient truncated towards zero). -/
def versionMajor (v : Int) : Int := Int.tdiv v 1000

/-- Expression `(v % 100) / 10` of C (remainder and quotient truncated towards zero). -/
def versionMinor (v : Int) : Int := Int.tdiv (Int.tmod v 100) 10

/-! ## Output items and statements of the render block -/

/-- One item of standard output: the text of one `printf` call, or `unspecified` when the
call received a pointer that designates no string. -/
inductive Out where
  | text (s : String)
  | unspecified
  deriving DecidableEq, Repr

/-- How a run ends. -/
inductive Outcome where
  | exitSuccess
  | exitFailure
  | undefinedBehaviour
  deriving DecidableEq, Repr

/-- The source expressions that the render block prints or streams. -/
inductive Field where
  | dev
  | name
  | driverMajor
  | driverMinor
  | runtimeMajor
  | runtimeMinor
  | major
  | minor
  | totalGlobalMemMBytes
  | totalGlobalMem
  | multiProcessorCount
  | coresPerMP
  | cudaCores
  | clockRateMHz
  | clockRateGHz
  | memoryClockRateMHz
  | memoryBusWidth
  | l2CacheSize
  | maxTexture1D
  | maxTexture2D_0
  | maxTexture2D_1
  | maxTexture3D_0
  | maxTexture3D_1
  | maxTexture3D_2
  | maxTexture1DLayered_0
  | maxTexture1DLayered_1
  | maxTexture2DLayered_0
  | maxTexture2DLayered_1
  | maxTexture2DLayered_2
  | totalConstMem
  | sharedMemPerBlock
  | sharedMemPerMultiprocessor
  | regsPerBlock
  | warpSize
  | maxThreadsPerMultiProcessor
  | maxThreadsPerBlock
  | maxThreadsDim_0
  | maxThreadsDim_1
  | maxThreadsDim_2
  | maxGridSize_0
  | maxGridSize_1
  | maxGridSize_2
  | memPitch
  | textureAlignment
  | deviceOverlap
  | asyncEngineCount
  | kernelExecTimeoutEnabled
  | integrated
  | canMapHostMemory
  | surfaceAlignment
  | ECCEnabled
  | unifiedAddressing
  | managedMemory
  | computePreemptionSupported
  | cooperativeLaunch
  | cooperativeMultiDeviceLaunch
  | pciDomainID
  | pciBusID
  | pciDeviceID
  | computeMode
  deriving DecidableEq, Repr

/-- A fragment of a `printf` call: literal text of the format, a converted argument
(tagged with its source expression), or a `%s` argument read from a table. -/
inductive Piece where
  | lit (s : String)
  | arg (field : Field) (text : String)
  | entry (field : Field) (e : Option String)

/-- Statements of the render block: `printf`, `snprintf` into a buffer of `size`
bytes followed by `printf("%s", msg)`, `myfile.open`, one streamed row
`myfile << label << value << "\n"`, and `myfile.close`. -/
inductive Stmt where
  | printf (pieces : List Piece)
  | printfBuf (size : Nat) (pieces : List Piece)
  | openCsv
  | row (label : String) (field : Field) (text : String)
  | closeCsv

/-- Text contributed by a fragment, `none` for a pointer that designates no string. -/
def Piece.text : Piece → Option String
  | .lit s => some s
  | .arg _ t => some t
  | .entry _ e => e

/-- Concatenated text of the fragments of one call. -/
def piecesText : List Piece → Option String
  | [] => some ""
  | p :: ps =>
    match p.text, piecesText ps with
    | some a, some b => some (a ++ b)
    | _, _ => none

/-- Output item of an optional text. -/
def Out.ofOption : Option String → Out
  | some s => .text s
  | none => .unspecified

/-- Result of `snprintf` into a buffer of `size` bytes: at most `size - 1` characters. -/
def snprintf (size : Nat) (s : String) : String := String.mk (s.data.take (size - 1))

/-- The table `sComputeMode`: five labels followed by the terminating `NULL`. -/
def sComputeMode : List (Option String) :=
  [some "Default (multiple host threads can use ::cudaSetDevice() with device simultaneously)",
   some "Exclusive (only one host thread in one process is able to use ::cudaSetDevice() with this device)",
   some "Prohibited (no host thread can use ::cudaSetDevice() with this device)",
   some "Exclusive Process (many threads in one process is able to use ::cudaSetDevice() with this device)",
   some "Unknown",
   none]

/-- The read `sComputeMode[mode]`: the outer `none` is a position outside the table,
the inner `none` is the `NULL` entry. -/
def sComputeModeRead (mode : Int) : Option (Option String) :=
  if mode < 0 then none else sComputeMode[mode.toNat]?

/-- The string designated by `sComputeMode[mode]`, if there is one. -/
def sComputeModeAt (mode : Int) : Option String := (sComputeModeRead mode).join

/-- Render block, part `blockHead`: opening of the file, header, versions, memory size, core counts and clocks. -/
def blockHead (env : Env) (driverVersion runtimeVersion : Int) (dev : Nat) (p : cudaDeviceProp) : List Stmt :=
  [
   Stmt.openCsv,
   Stmt.printf [Piece.lit "\nDevice ",
     Piece.arg Field.dev (fmtD (dev : Int)),
     Piece.lit ": \"",
     Piece.arg Field.name (p.name),
     Piece.lit "\"\n"],
   Stmt.printf [Piece.lit "  CUDA Driver Version / Runtime Version          ",
     Piece.arg Field.driverMajor (fmtD (versionMajor driverVersion)),
     Piece.lit ".",
     Piece.arg Field.driverMinor (fmtD (versionMinor driverVersion)),
     Piece.lit " / ",
     Piece.arg Field.runtimeMajor (fmtD (versionMajor runtimeVersion)),
     Piece.lit ".",
     Piece.arg Field.runtimeMinor (fmtD (versionMinor runtimeVersion)),
     Piece.lit "\n"],
   Stmt.printf [Piece.lit "  CUDA Capability Major/Minor version number:    ",
     Piece.arg Field.major (fmtD p.major),
     Piece.lit ".",
     Piece.arg Field.minor (fmtD p.minor),
     Piece.lit "\n"],
   Stmt.row "Total amount of global memory(MBytes)," Field.totalGlobalMemMBytes (fmtG6 ((F32.ofNat p.totalGlobalMem).divPow2 20)),
   Stmt.printfBuf 256 [Piece.lit "  Total amount of global memory:                 ",
     Piece.arg Field.totalGlobalMemMBytes (fmtF0 ((F32.ofNat p.totalGlobalMem).divPow2 20)),
     Piece.lit " MBytes (",
     Piece.arg Field.totalGlobalMem (fmtU p.totalGlobalMem),
     Piece.lit " bytes)\n"],
   Stmt.printf [Piece.lit "  (",
     Piece.arg Field.multiProcessorCount (fmt03D p.multiProcessorCount),
     Piece.lit ") Multiprocessors, (",
     Piece.arg Field.coresPerMP (fmt03D (env.ConvertSMVer2Cores p.major p.minor)),
     Piece.lit ") CUDA Cores/MP:    ",
     Piece.arg Field.cudaCores (fmtD (mulInt (env.ConvertSMVer2Cores p.major p.minor) p.multiProcessorCount)),
     Piece.lit " CUDA Cores\n"],
   Stmt.row "Multiprocessors," Field.multiProcessorCount (fmtD p.multiProcessorCount),
   Stmt.row "CUDA Cores/MP," Field.coresPerMP (fmtD (env.ConvertSMVer2Cores p.major p.minor)),
   Stmt.row "CUDA Cores," Field.cudaCores (fmtD (mulInt (env.ConvertSMVer2Cores p.major p.minor) p.multiProcessorCount)),
   Stmt.printf [Piece.lit "  GPU Max Clock rate:                            ",
     Piece.arg Field.clockRateMHz (fmtF0 (F32.ofInt p.clockRate).mul1em3),
     Piece.lit " MHz (",
     Piece.arg Field.clockRateGHz (fmtF2 (F32.ofInt p.clockRate).mul1em6),
     Piece.lit " GHz)\n"],
   Stmt.row "GPU Max Clock rate(MHz)," Field.clockRateMHz (fmtG6 (F32.ofInt p.clockRate).mul1em3),
   Stmt.printf [Piece.lit "  Memory Clock rate:                             ",
     Piece.arg Field.memoryClockRateMHz (fmtF0 (F32.ofInt p.memoryClockRate).mul1em3),
     Piece.lit " Mhz\n"],
   Stmt.row "Memory Clock rate," Field.memoryClockRateMHz (fmtG6 (F32.ofInt p.memoryClockRate).mul1em3),
   Stmt.printf [Piece.lit "  Memory Bus Width:                              ",
     Piece.arg Field.memoryBusWidth (fmtD p.memoryBusWidth),
     Piece.lit "-bit\n"],
   Stmt.row "Memory Bus Width," Field.memoryBusWidth (fmtD p.memoryBusWidth)]

/-- Render block, part `blockL2`: the L2 cache line and row. -/
def blockL2 (p : cudaDeviceProp) : List Stmt :=
  if p.l2CacheSize ≠ 0 then [
   Stmt.printf [Piece.lit "  L2 Cache Size:                                 ",
     Piece.arg Field.l2CacheSize (fmtD p.l2CacheSize),
     Piece.lit " bytes\n"],
   Stmt.row "L2 Cache Size," Field.l2CacheSize (fmtD p.l2CacheSize)] else []

/-- Render block, part `blockTextures`: texture limits. -/
def blockTextures (p : cudaDeviceProp) : List Stmt :=
  [
   Stmt.printf [Piece.lit "  Maximum Texture Dimension Size (x,y,z)         1D=(",
     Piece.arg Field.maxTexture1D (fmtD p.maxTexture1D),
     Piece.lit "), 2D=(",
     Piece.arg Field.maxTexture2D_0 (fmtD (p.maxTexture2D 0)),
     Piece.lit ", ",
     Piece.arg Field.maxTexture2D_1 (fmtD (p.maxTexture2D 1)),
     Piece.lit "), 3D=(",
     Piece.arg Field.maxTexture3D_0 (fmtD (p.maxTexture3D 0)),
     Piece.lit ", ",
     Piece.arg Field.maxTexture3D_1 (fmtD (p.maxTexture3D 1)),
     Piece.lit ", ",
     Piece.arg Field.maxTexture3D_2 (fmtD (p.maxTexture3D 2)),
     Piece.lit ")\n"],
   Stmt.row "Maximum Texture Dimension Size (xyz) 1D," Field.maxTexture1D (fmtD p.maxTexture1D),
   Stmt.row "Maximum Texture Dimension Size (xyz) 2D[0]," Field.maxTexture2D_0 (fmtD (p.maxTexture2D 0)),
   Stmt.row "Maximum Texture Dimension Size (xyz) 2D[1]," Field.maxTexture2D_1 (fmtD (p.maxTexture2D 1)),
   Stmt.row "Maximum Texture Dimension Size (xyz) 3D[0]," Field.maxTexture3D_0 (fmtD (p.maxTexture3D 0)),
   Stmt.row "Maximum Texture Dimension Size (xyz) 3D[1]," Field.maxTexture3D_1 (fmtD (p.maxTexture3D 1)),
   Stmt.row "Maximum Texture Dimension Size (xyz) 3D[2]," Field.maxTexture3D_2 (fmtD (p.maxTexture3D 2)),
   Stmt.printf [Piece.lit "  Maximum Layered 1D Texture Size, (num) layers  1D=(",
     Piece.arg Field.maxTexture1DLayered_0 (fmtD (p.maxTexture1DLayered 0)),
     Piece.lit "), ",
     Piece.arg Field.maxTexture1DLayered_1 (fmtD (p.maxTexture1DLayered 1)),
     Piece.lit " layers\n"],
   Stmt.row "Maximum Layered 1D Texture Size num," Field.maxTexture1DLayered_0 (fmtD (p.maxTexture1DLayered 0)),
   Stmt.row "Maximum Layered 1D Texture Size layer," Field.maxTexture1DLayered_1 (fmtD (p.maxTexture1DLayered 1)),
   Stmt.printf [Piece.lit "  Maximum Layered 2D Texture Size, (num) layers  2D=(",
     Piece.arg Field.maxTexture2DLayered_0 (fmtD (p.maxTexture2DLayered 0)),
     Piece.lit ", ",
     Piece.arg Field.maxTexture2DLayered_1 (fmtD (p.maxTexture2DLayered 1)),
     Piece.lit "), ",
     Piece.arg Field.maxTexture2DLayered_2 (fmtD (p.maxTexture2DLayered 2)),
     Piece.lit " layers\n"],
   Stmt.row "Maximum Layered 2D Texture Size num 2D[0]," Field.maxTexture2DLayered_0 (fmtD (p.maxTexture2DLayered 0)),
   Stmt.row "Maximum Layered 2D Texture Size num 2D[1]," Field.maxTexture2DLayered_1 (fmtD (p.maxTexture2DLayered 1)),
   Stmt.row "Maximum Layered 2D Texture Size num layers," Field.maxTexture2DLayered_2 (fmtD (p.maxTexture2DLayered 2))]

/-- Render block, part `blockLimits`: memory sizes and thread and grid limits. -/
def blockLimits (p : cudaDeviceProp) : List Stmt :=
  [
   Stmt.printf [Piece.lit "  Total amount of constant memory:               ",
     Piece.arg Field.totalConstMem (fmtU p.totalConstMem),
     Piece.lit " bytes\n"],
   Stmt.row "Total amount of constant memory," Field.totalConstMem (fmtU p.totalConstMem),
   Stmt.printf [Piece.lit "  Total amount of shared memory per block:       ",
     Piece.arg Field.sharedMemPerBlock (fmtU p.sharedMemPerBlock),
     Piece.lit " bytes\n"],
   Stmt.row "Total amount of shared memory per block," Field.sharedMemPerBlock (fmtU p.sharedMemPerBlock),
   Stmt.printf [Piece.lit "  Total shared memory per multiprocessor:        ",
     Piece.arg Field.sharedMemPerMultiprocessor (fmtU p.sharedMemPerMultiprocessor),
     Piece.lit " bytes\n"],
   Stmt.row "Total shared memory per multiprocessor," Field.sharedMemPerMultiprocessor (fmtU p.sharedMemPerMultiprocessor),
   Stmt.printf [Piece.lit "  Total number of registers available per block: ",
     Piece.arg Field.regsPerBlock (fmtD p.regsPerBlock),
     Piece.lit "\n"],
   Stmt.row "Total number of registers available per block," Field.regsPerBlock (fmtD p.regsPerBlock),
   Stmt.printf [Piece.lit "  Warp size:                                     ",
     Piece.arg Field.warpSize (fmtD p.warpSize),
     Piece.lit "\n"],
   Stmt.row "Warp size," Field.warpSize (fmtD p.warpSize),
   Stmt.printf [Piece.lit "  Maximum number of threads per multiprocessor:  ",
     Piece.arg Field.maxThreadsPerMultiProcessor (fmtD p.maxThreadsPerMultiProcessor),
     Piece.lit "\n"],
   Stmt.row "Maximum number of threads per multiprocessor," Field.maxThreadsPerMultiProcessor (fmtD p.maxThreadsPerMultiProcessor),
   Stmt.printf [Piece.lit "  Maximum number of threads per block:           ",
     Piece.arg Field.maxThreadsPerBlock (fmtD p.maxThreadsPerBlock),
     Piece.lit "\n"],
   Stmt.row "Maximum number of threads per block," Field.maxThreadsPerBlock (fmtD p.maxThreadsPerBlock),
   Stmt.printf [Piece.lit "  Max dimension size of a thread block (xyz): (",
     Piece.arg Field.maxThreadsDim_0 (fmtD (p.maxThreadsDim 0)),
     Piece.lit ", ",
     Piece.arg Field.maxThreadsDim_1 (fmtD (p.maxThreadsDim 1)),
     Piece.lit ", ",
     Piece.arg Field.maxThreadsDim_2 (fmtD (p.maxThreadsDim 2)),
     Piece.lit ")\n"],
   Stmt.row "Max dimension size of a thread block (xyz) x," Field.maxThreadsDim_0 (fmtD (p.maxThreadsDim 0)),
   Stmt.row "Max dimension size of a thread block (xyz) y," Field.maxThreadsDim_1 (fmtD (p.maxThreadsDim 1)),
   Stmt.row "Max dimension size of a thread block (xyz) z," Field.maxThreadsDim_2 (fmtD (p.maxThreadsDim 2)),
   Stmt.printf [Piece.lit "  Max dimension size of a grid size    (xyz): (",
     Piece.arg Field.maxGridSize_0 (fmtD (p.maxGridSize 0)),
     Piece.lit ", ",
     Piece.arg Field.maxGridSize_1 (fmtD (p.maxGridSize 1)),
     Piece.lit ", ",
     Piece.arg Field.maxGridSize_2 (fmtD (p.maxGridSize 2)),
     Piece.lit ")\n"],
   Stmt.row "Max dimension size of a grid size    (xyz) x," Field.maxGridSize_0 (fmtD (p.maxGridSize 0)),
   Stmt.row "Max dimension size of a grid size    (xyz) y," Field.maxGridSize_1 (fmtD (p.maxGridSize 1)),
   Stmt.row "Max dimension size of a grid size    (xyz) z," Field.maxGridSize_2 (fmtD (p.maxGridSize 2)),
   Stmt.printf [Piece.lit "  Maximum memory pitch:                          ",
     Piece.arg Field.memPitch (fmtU p.memPitch),
     Piece.lit " bytes\n"],
   Stmt.row "Maximum memory pitch," Field.memPitch (fmtU p.memPitch),
   Stmt.printf [Piece.lit "  Texture alignment:                             ",
     Piece.arg Field.textureAlignment (fmtU p.textureAlignment),
     Piece.lit " bytes\n"],
   Stmt.row "Texture alignment," Field.textureAlignment (fmtU p.textureAlignment)]

/-- Render block, part `blockFlags`: feature flags. -/
def blockFlags (p : cudaDeviceProp) : List Stmt :=
  [
   Stmt.printf [Piece.lit "  Concurrent copy and kernel execution:          ",
     Piece.arg Field.deviceOverlap (yesNo (decide (p.deviceOverlap ≠ 0))),
     Piece.lit " with ",
     Piece.arg Field.asyncEngineCount (fmtD p.asyncEngineCount),
     Piece.lit " copy engine(s)\n"],
   Stmt.row "Concurrent copy and kernel execution," Field.deviceOverlap (yesNo (decide (p.deviceOverlap ≠ 0))),
   Stmt.row "Concurrent copy and kernel execution copy engines," Field.asyncEngineCount (fmtD p.asyncEngineCount),
   Stmt.printf [Piece.lit "  Run time limit on kernels:                     ",
     Piece.arg Field.kernelExecTimeoutEnabled (yesNo (decide (p.kernelExecTimeoutEnabled ≠ 0))),
     Piece.lit "\n"],
   Stmt.row "Run time limit on kernels," Field.kernelExecTimeoutEnabled (yesNo (decide (p.kernelExecTimeoutEnabled ≠ 0))),
   Stmt.printf [Piece.lit "  Integrated GPU sharing Host Memory:            ",
     Piece.arg Field.integrated (yesNo (decide (p.integrated ≠ 0))),
     Piece.lit "\n"],
   Stmt.row "Integrated GPU sharing Host Memory," Field.integrated (yesNo (decide (p.integrated ≠ 0))),
   Stmt.printf [Piece.lit "  Support host page-locked memory mapping:       ",
     Piece.arg Field.canMapHostMemory (yesNo (decide (p.canMapHostMemory ≠ 0))),
     Piece.lit "\n"],
   Stmt.row "Support host page-locked memory mapping," Field.canMapHostMemory (yesNo (decide (p.canMapHostMemory ≠ 0))),
   Stmt.printf [Piece.lit "  Alignment requirement for Surfaces:            ",
     Piece.arg Field.surfaceAlignment (yesNo (decide (p.surfaceAlignment ≠ 0))),
     Piece.lit "\n"],
   Stmt.row "Alignment requirement for Surfaces," Field.surfaceAlignment (yesNo (decide (p.surfaceAlignment ≠ 0))),
   Stmt.printf [Piece.lit "  Device has ECC support:                        ",
     Piece.arg Field.ECCEnabled (enabledDisabled (decide (p.ECCEnabled ≠ 0))),
     Piece.lit "\n"],
   Stmt.row "Device has ECC support," Field.ECCEnabled (enabledDisabled (decide (p.ECCEnabled ≠ 0))),
   Stmt.printf [Piece.lit "  Device supports Unified Addressing (UVA):      ",
     Piece.arg Field.unifiedAddressing (yesNo (decide (p.unifiedAddressing ≠ 0))),
     Piece.lit "\n"],
   Stmt.row "Device supports Unified Addressing (UVA)," Field.unifiedAddressing (yesNo (decide (p.unifiedAddressing ≠ 0))),
   Stmt.printf [Piece.lit "  Device supports Managed Memory:                ",
     Piece.arg Field.managedMemory (yesNo (decide (p.managedMemory ≠ 0))),
     Piece.lit "\n"],
   Stmt.row "Device supports Managed Memory," Field.managedMemory (yesNo (decide (p.managedMemory ≠ 0))),
   Stmt.printf [Piece.lit "  Device supports Compute Preemption:            ",
     Piece.arg Field.computePreemptionSupported (yesNo (decide (p.computePreemptionSupported ≠ 0))),
     Piece.lit "\n"],
   Stmt.row "Device supports Compute Preemption," Field.computePreemptionSupported (yesNo (decide (p.computePreemptionSupported ≠ 0))),
   Stmt.printf [Piece.lit "  Supports Cooperative Kernel Launch:            ",
     Piece.arg Field.cooperativeLaunch (yesNo (decide (p.cooperativeLaunch ≠ 0))),
     Piece.lit "\n"],
   Stmt.row "Supports Cooperative Kernel Launch," Field.cooperativeLaunch (yesNo (decide (p.cooperativeLaunch ≠ 0))),
   Stmt.printf [Piece.lit "  Supports MultiDevice Co-op Kernel Launch:      ",
     Piece.arg Field.cooperativeMultiDeviceLaunch (yesNo (decide (p.cooperativeMultiDeviceLaunch ≠ 0))),
     Piece.lit "\n"],
   Stmt.row "Supports MultiDevice Co-op Kernel Launch," Field.cooperativeMultiDeviceLaunch (yesNo (decide (p.cooperativeMultiDeviceLaunch ≠ 0)))]

/-- Render block, part `blockPci`: pCI identifiers, closing of the file, and the compute mode lines. -/
def blockPci (p : cudaDeviceProp) : List Stmt :=
  [
   Stmt.printf [Piece.lit "  Device PCI Domain ID / Bus ID / location ID:   ",
     Piece.arg Field.pciDomainID (fmtD p.pciDomainID),
     Piece.lit " / ",
     Piece.arg Field.pciBusID (fmtD p.pciBusID),
     Piece.lit " / ",
     Piece.arg Field.pciDeviceID (fmtD p.pciDeviceID),
     Piece.lit "\n"],
   Stmt.row "Device PCI Domain ID," Field.pciDomainID (fmtD p.pciDomainID),
   Stmt.row "Device PCI Bus ID," Field.pciBusID (fmtD p.pciBusID),
   Stmt.row "Device PCI location ID," Field.pciDeviceID (fmtD p.pciDeviceID),
   Stmt.closeCsv,
   Stmt.printf [Piece.lit "  Compute Mode:\n"],
   Stmt.printf [Piece.lit "     < ",
     Piece.entry Field.computeMode (sComputeModeAt p.computeMode),
     Piece.lit " >\n"]]

/-- The render block of the per-device loop for device `dev` with snapshot `p`
(source lines 84 to 325), statement by statement in execution order;
`driverVersion` and `runtimeVersion` are the variables just assigned by the
version queries. -/
def deviceBlock (env : Env) (driverVersion runtimeVersion : Int) (dev : Nat)
    (p : cudaDeviceProp) : List Stmt :=
  blockHead env driverVersion runtimeVersion dev p ++ blockL2 p ++ blockTextures p
    ++ blockLimits p ++ blockFlags p ++ blockPci p

/-! ## Program state and control flow -/

/-- The observable state of a run.  `csv` is the content of `devicequery.csv`, one
entry per streamed row; `rendered` and `queries` record the device indices whose
render block ran and the `cudaDeviceCanAccessPeer` calls; `outcome` is `none` while
the program is running. -/
structure State where
  stdout : List Out
  csv : List String
  csvOpen : Bool
  driverVersion : Int
  runtimeVersion : Int
  rendered : List Nat
  queries : List (Nat × Nat)
  outcome : Option Outcome

/-- State at the entry of `main`, the file holding `csv0`. -/
def initialState (csv0 : List String) : State :=
  { stdout := [], csv := csv0, csvOpen := false, driverVersion := 0, runtimeVersion := 0,
    rendered := [], queries := [], outcome := none }

/-- One `printf` of a complete text. -/
def State.print (s : State) (t : String) : State :=
  { s with stdout := s.stdout ++ [Out.text t] }

/-- One `printf` whose text may be undefined: a defined text is appended to standard
output; with a `%s` argument that designates no string the call is undefined behaviour,
the item written is unspecified and the run ends there. -/
def State.emit (s : State) : Option String → State
  | some t => { s with stdout := s.stdout ++ [Out.text t] }
  | none => { s with stdout := s.stdout ++ [Out.unspecified],
                     outcome := some Outcome.undefinedBehaviour }

/-- Execution of one statement of the render block; a `printf` whose text is undefined
ends the run. -/
def Stmt.exec (s : State) : Stmt → State
  | .printf ps => s.emit (piecesText ps)
  | .printfBuf size ps => s.emit ((piecesText ps).map (snprintf size))
  | .openCsv => { s with csv := [], csvOpen := true }
  | .row label _ t => if s.csvOpen then { s with csv := s.csv ++ [label ++ t ++ "\n"] } else s
  | .closeCsv => { s with csvOpen := false }

/-- Execution of a statement sequence.  In the render block only the last statement can
end the run (`deviceBlock_faults_last`), so no statement is run after the end. -/
def execAll (stmts : List Stmt) (s : State) : State := stmts.foldl Stmt.exec s

/-- The loop `for (i = start; i < bound; i++) body`, run with `fuel` iterations at most. -/
def forLoop {σ : Type} (bound : Nat) (body : Nat → σ → σ) : Nat → Nat → σ → σ
  | 0, _, s => s
  | fuel + 1, i, s => if i < bound then forLoop bound body fuel (i + 1) (body i s) else s

/-- Banner, `cudaGetDeviceCount`, its check, and the device count line
(source lines 56 to 75). -/
def enumerate (env : Env) (s : State) : State :=
  let s1 := (s.print (env.argv0 ++ " Starting...\n\n")).print
    " CUDA Device Query (Runtime API) version (CUDART static linking)\n\n"
  if env.countStatus ≠ 0 then
    { ((s1.print ("cudaGetDeviceCount returned " ++ fmtD env.countStatus ++ "\n-> "
          ++ env.errorString env.countStatus ++ "\n")).print "Result = FAIL\n") with
      outcome := some Outcome.exitFailure }
  else if env.deviceCount = 0 then
    s1.print "There are no available device(s) that support CUDA\n"
  else
    s1.print ("Detected " ++ fmtD env.deviceCount ++ " CUDA Capable device(s)\n")

/-- Body of the per-device loop (source lines 80 to 325): the unchecked property read,
the version queries, and the render block. -/
def renderDevice (env : Env) (dev : Nat) (s : State) : State :=
  let s1 := { s with driverVersion := env.driverVersion, runtimeVersion := env.runtimeVersion,
                     rendered := s.rendered ++ [dev] }
  execAll (deviceBlock env s1.driverVersion s1.runtimeVersion dev (env.loopProps dev).2) s1

/-- One iteration of the per-device loop, run only while the program has not ended. -/
def renderStep (env : Env) (dev : Nat) (s : State) : State :=
  if s.outcome.isSome then s else renderDevice env dev s

/-- The per-device loop `for (dev = 0; dev < deviceCount; ++dev)`. -/
def deviceLoop (env : Env) (s : State) : State :=
  forLoop env.deviceCount (renderStep env) env.deviceCount 0 s

/-! ## Peer access phase -/

/-- State of the peer access phase: the program state and the local arrays
`prop[64]`, `gpuid[64]` (a slot is `none` until it is written) and `gpu_p2p_count`. -/
structure Peer where
  st : State
  prop : List (Option cudaDeviceProp)
  gpuid : List (Option Nat)
  gpu_p2p_count : Nat

/-- Store into slot `i` of an array, `none` when `i` is outside the array. -/
def writeSlot {α : Type} (a : List (Option α)) (i : Nat) (v : α) : Option (List (Option α)) :=
  if i < a.length then some (a.set i (some v)) else none

/-- Load of slot `i` of an array, `none` when `i` is outside the array or the slot
was never written. -/
def readSlot {α : Type} (a : List (Option α)) (i : Nat) : Option α := (a[i]?).join

/-- End of the run inside the peer access phase. -/
def Peer.stop (ps : Peer) (o : Outcome) : Peer :=
  { ps with st := { ps.st with outcome := some o } }

/-- Body of the filtering loop (source lines 335 to 347) for index `i`. -/
def filterBody (env : Env) (i : Nat) (ps : Peer) : Peer :=
  if ps.st.outcome.isSome then ps else
  match writeSlot ps.prop i (env.peerProps i).2 with
  | none => ps.stop Outcome.undefinedBehaviour
  | some prop1 =>
    if (env.peerProps i).1 ≠ 0 then { ps with prop := prop1 }.stop Outcome.exitFailure
    else
      match readSlot prop1 i with
      | none => { ps with prop := prop1 }.stop Outcome.undefinedBehaviour
      | some q =>
        if 2 ≤ q.major then
          match writeSlot ps.gpuid ps.gpu_p2p_count i with
          | none => { ps with prop := prop1 }.stop Outcome.undefinedBehaviour
          | some gpuid1 =>
            { ps with prop := prop1, gpuid := gpuid1, gpu_p2p_count := ps.gpu_p2p_count + 1 }
        else { ps with prop := prop1 }

/-- Text of one peer access line. -/
def peerLine (nameA : String) (a : Nat) (nameB : String) (b : Nat) (can_access_peer : Int) :
    String :=
  "> Peer access from " ++ nameA ++ " (GPU" ++ fmtD a ++ ") -> " ++ nameB ++ " (GPU"
    ++ fmtD b ++ ") : " ++ yesNo (decide (can_access_peer ≠ 0)) ++ "\n"

/-- Body of the inner pair loop (source lines 356 to 363) for positions `i` and `j`. -/
def pairBody (env : Env) (i j : Nat) (ps : Peer) : Peer :=
  if ps.st.outcome.isSome then ps else
  match readSlot ps.gpuid i, readSlot ps.gpuid j with
  | some a, some b =>
    if a = b then ps else
    let ps1 := { ps with st := { ps.st with queries := ps.st.queries ++ [(a, b)] } }
    if (env.canAccessPeer a b).1 ≠ 0 then ps1.stop Outcome.exitFailure
    else
      match readSlot ps.prop a, readSlot ps.prop b with
      | some pa, some pb =>
        { ps1 with st := ps1.st.print (peerLine pa.name a pb.name b (env.canAccessPeer a b).2) }
      | _, _ => ps1.stop Outcome.undefinedBehaviour
  | _, _ => ps.stop Outcome.undefinedBehaviour

/-- The two nested pair loops (source lines 354 to 365). -/
def pairLoops (env : Env) (ps : Peer) : Peer :=
  forLoop ps.gpu_p2p_count
    (fun i ps1 => forLoop ps.gpu_p2p_count (pairBody env i) ps.gpu_p2p_count 0 ps1)
    ps.gpu_p2p_count 0 ps

/-- The local arrays of the peer access phase before the filtering loop: 64 slots each,
none written, and no peer capable device counted. -/
def peerInit (s : State) : Peer :=
  { st := s, prop := List.replicate 64 none, gpuid := List.replicate 64 none, gpu_p2p_count := 0 }

/-- The filtering loop (source lines 334 to 348) from fresh arrays. -/
def filterLoop (env : Env) (s : State) : Peer :=
  forLoop env.deviceCount (filterBody env) env.deviceCount 0 (peerInit s)

/-- The peer access phase (source lines 329 to 367). -/
def peerPhase (env : Env) (s : State) : State :=
  if s.outcome.isSome then s
  else if 2 ≤ env.deviceCount then
    let ps := filterLoop env s
    if 2 ≤ ps.gpu_p2p_count then (pairLoops env ps).st else ps.st
  else s

/-! ## Summary -/

/-- Text `%d.%d` of a version code written into `cTemp[16]`. -/
def versionText (v : Int) : String :=
  snprintf 16 (fmtD (versionMajor v) ++ "." ++ fmtD (versionMinor v))

/-- The string `sProfileString` (source lines 373 to 404). -/
def sProfileString (driverVersion runtimeVersion : Int) (deviceCount : Nat) : String :=
  "deviceQuery, CUDA Driver = CUDART" ++ ", CUDA Driver Version = " ++ versionText driverVersion
    ++ ", CUDA Runtime Version = " ++ versionText runtimeVersion
    ++ ", NumDevs = " ++ snprintf 16 (fmtD deviceCount) ++ "\n"

/-- The summary (source lines 372 to 410). -/
def summary (env : Env) (s : State) : State :=
  if s.outcome.isSome then s
  else
    { (((s.print "\n").print (sProfileString s.driverVersion s.runtimeVersion env.deviceCount)).print
        "Result = PASS\n") with outcome := some Outcome.exitSuccess }

/-- The program: `main` run against the answers `env`, `devicequery.csv` holding `csv0`
at the start. -/
def main (env : Env) (csv0 : List String) : State :=
  summary env (peerPhase env (deviceLoop env (enumerate env (initialState csv0))))

/-! ## Observations on statement sequences -/

/-- Output item of a statement, if it prints. -/
def Stmt.out? : Stmt → Option Out
  | .printf ps => some (Out.ofOption (piecesText ps))
  | .printfBuf size ps => some (Out.ofOption ((piecesText ps).map (snprintf size)))
  | _ => none

/-- Row text of a statement, if it streams a row. -/
def Stmt.row? : Stmt → Option String
  | .row label _ t => some (label ++ t ++ "\n")
  | _ => none

/-- Source expressions printed by a statement with their converted texts. -/
def Stmt.consoleArgs : Stmt → List (Field × String)
  | .printf ps => ps.filterMap (fun p => match p with
      | .arg f t => some (f, t)
      | _ => none)
  | .printfBuf _ ps => ps.filterMap (fun p => match p with
      | .arg f t => some (f, t)
      | _ => none)
  | _ => []

/-- Source expression streamed by a statement with its converted text. -/
def Stmt.csvArgs : Stmt → List (Field × String)
  | .row _ f t => [(f, t)]
  | _ => []

/-- The items a statement sequence writes to standard output. -/
def consoleOut (stmts : List Stmt) : List Out := stmts.filterMap Stmt.out?

/-- The rows a statement sequence streams. -/
def csvRows (stmts : List Stmt) : List String := stmts.filterMap Stmt.row?

/-- The printed expressions of a statement sequence with their texts. -/
def consoleArgs (stmts : List Stmt) : List (Field × String) := stmts.flatMap Stmt.consoleArgs

/-- The streamed expressions of a statement sequence with their texts. -/
def csvArgs (stmts : List Stmt) : List (Field × String) := stmts.flatMap Stmt.csvArgs

/-- Statements that may stand between the opening and the closing of the file. -/
def Stmt.isBody : Stmt → Bool
  | .openCsv => false
  | .closeCsv => false
  | _ => true

/-- The render block that a run executes for device `dev`. -/
def blockOf (env : Env) (dev : Nat) : List Stmt :=
  deviceBlock env env.driverVersion env.runtimeVersion dev (env.loopProps dev).2

/-- Invariant of the filtering loop after `bound` iterations. -/
def FilterInv (bound : Nat) (ps : Peer) : Prop :=
  ps.prop.length = 64 ∧ ps.gpuid.length = 64 ∧ ps.gpu_p2p_count ≤ bound ∧
  (∀ k, k < ps.gpu_p2p_count →
    ∃ g, readSlot ps.gpuid k = some g ∧ g < bound ∧ (readSlot ps.prop g).isSome = true) ∧
  (∀ k1 k2 g1 g2, k1 < k2 → k2 < ps.gpu_p2p_count → readSlot ps.gpuid k1 = some g1 →
    readSlot ps.gpuid k2 = some g2 → g1 < g2) ∧
  ps.st.outcome ≠ some Outcome.undefinedBehaviour

/-- Device indices below `i` whose snapshot read in the peer phase has a compute
capability major version of at least 2. -/
def peerCapable (env : Env) (i : Nat) : List Nat :=
  (List.range i).filter (fun j => decide (2 ≤ (env.peerProps j).2.major))

/-- Exact content of the filtering loop state after `i` iterations. -/
def FilterTrack (env : Env) (s : State) (i : Nat) (ps : Peer) : Prop :=
  ((∀ j, j < i → (env.peerProps j).1 = 0) ∧ ps.st = s ∧ ps.prop.length = 64 ∧
    ps.gpuid.length = 64 ∧ ps.gpu_p2p_count = (peerCapable env i).length ∧
    (∀ k, k < (peerCapable env i).length → readSlot ps.gpuid k = (peerCapable env i)[k]?) ∧
    (∀ j, j < i → readSlot ps.prop j = some (env.peerProps j).2)) ∨
  ((∃ j, j < i ∧ (env.peerProps j).1 ≠ 0) ∧
    ps.st = { s with outcome := some Outcome.exitFailure })

/-- Effect on the program state of one iteration of the inner pair loop, `a` and `b`
being the device indices `gpuid[i]` and `gpuid[j]`. -/
def pairStep (env : Env) (a b : Nat) (st : State) : State :=
  if st.outcome.isSome then st
  else if a = b then st
  else if (env.canAccessPeer a b).1 ≠ 0 then
    { st with queries := st.queries ++ [(a, b)], outcome := some Outcome.exitFailure }
  else
    { st with queries := st.queries ++ [(a, b)],
              stdout := st.stdout ++ [Out.text (peerLine (env.peerProps a).2.name a
                (env.peerProps b).2.name b (env.canAccessPeer a b).2)] }

/-- The arrays hold the list `l` of device indices and the snapshots of its members. -/
def ArraysHold (env : Env) (l : List Nat) (ps : Peer) : Prop :=
  (∀ k, k < l.length → readSlot ps.gpuid k = l[k]?) ∧
  (∀ g, g ∈ l → readSlot ps.prop g = some (env.peerProps g).2)

/-- The program state after the pair loops over the list `l` of device indices. -/
def pairsRun (env : Env) (l : List Nat) (st : State) : State :=
  l.foldl (fun st a => l.foldl (fun st b => pairStep env a b st) st) st

/-- All pairs of members of `l`, in the order in which the pair loops visit them. -/
def allPairs (l : List Nat) : List (Nat × Nat) := l.flatMap (fun a => l.map (fun b => (a, b)))

/-- The ordered pairs of distinct members of `l`, in lexicographic order of positions. -/
def orderedPairs (l : List Nat) : List (Nat × Nat) :=
  l.flatMap (fun a => (l.filter (fun b => decide (a ≠ b))).map (fun b => (a, b)))

/-- The output item of the peer access line for the pair `ab`. -/
def peerOut (env : Env) (ab : Nat × Nat) : Out :=
  Out.text (peerLine (env.peerProps ab.1).2.name ab.1 (env.peerProps ab.2).2.name ab.2
    (env.canAccessPeer ab.1 ab.2).2)

/-- Statements whose execution is defined: every `%s` argument designates a string. -/
def Stmt.safe : Stmt → Bool
  | .printf ps => (piecesText ps).isSome
  | .printfBuf _ ps => (piecesText ps).isSome
  | _ => true

/-- The compute mode values at which `sComputeMode` holds a label. -/
def computeModeOk (m : Int) : Prop := 0 ≤ m ∧ m ≤ 4

/-- Every snapshot that the render loop receives has a compute mode value at which
`sComputeMode` holds a label. -/
def loopModesOk (env : Env) : Prop :=
  ∀ dev, dev < env.deviceCount → computeModeOk (env.loopProps dev).2.computeMode

/-- The part of the program state that the peer access phase leaves alone. -/
def SameFile (s t : State) : Prop :=
  t.csv = s.csv ∧ t.csvOpen = s.csvOpen ∧ t.driverVersion = s.driverVersion ∧
  t.runtimeVersion = s.runtimeVersion ∧ t.rendered = s.rendered

/-- The program state after the per-device loop of a run whose count query succeeded. -/
def afterLoop (env : Env) (csv0 : List String) : State :=
  deviceLoop env (enumerate env (initialState csv0))

/-- A checked call of the peer access phase returns an error: the run has at least two
devices and either a property read of the filtering loop or a capability query for two
distinct peer capable devices returns a status other than `cudaSuccess`. -/
def peerFailure (env : Env) : Prop :=
  2 ≤ env.deviceCount ∧
    ((∃ j, j < env.deviceCount ∧ (env.peerProps j).1 ≠ 0) ∨
     (∃ a b, a ∈ peerCapable env env.deviceCount ∧ b ∈ peerCapable env env.deviceCount ∧
        a ≠ b ∧ (env.canAccessPeer a b).1 ≠ 0))

/-! ## Sample data -/

/-- A device snapshot used in examples: 8 GiB of memory, 68 multiprocessors. -/
def sampleProp : cudaDeviceProp :=
  { name := "GPU", major := 7, minor := 5, totalGlobalMem := 8589934592,
    multiProcessorCount := 68, clockRate := 1500000, memoryClockRate := 7000000,
    memoryBusWidth := 256, l2CacheSize := 4194304, maxTexture1D := 131072,
    maxTexture2D := fun _ => 65536, maxTexture3D := fun _ => 16384,
    maxTexture1DLayered := fun _ => 2048, maxTexture2DLayered := fun _ => 2048,
    totalConstMem := 65536, sharedMemPerBlock := 49152, sharedMemPerMultiprocessor := 65536,
    regsPerBlock := 65536, warpSize := 32, maxThreadsPerMultiProcessor := 1024,
    maxThreadsPerBlock := 1024, maxThreadsDim := fun _ => 1024, maxGridSize := fun _ => 65535,
    memPitch := 2147483647, textureAlignment := 512, deviceOverlap := 1, asyncEngineCount := 3,
    kernelExecTimeoutEnabled := 0, integrated := 0, canMapHostMemory := 1,
    surfaceAlignment := 1, ECCEnabled := 0, unifiedAddressing := 1, managedMemory := 1,
    computePreemptionSupported := 1, cooperativeLaunch := 1, cooperativeMultiDeviceLaunch := 1,
    pciDomainID := 0, pciBusID := 1, pciDeviceID := 0, computeMode := 0 }

/-- Answers of a healthy system with `n` copies of `sampleProp`, driver and runtime
version 11.2, 64 cores per multiprocessor, and peer access granted everywhere. -/
def sampleEnv (n : Nat) : Env :=
  { argv0 := "./deviceQuery", countStatus := 0, deviceCount := n,
    errorString := fun _ => "error", driverVersion := 11020, runtimeVersion := 11020,
    loopProps := fun _ => (0, sampleProp), peerProps := fun _ => (0, sampleProp),
    canAccessPeer := fun _ _ => (0, 1), ConvertSMVer2Cores := fun _ _ => 64 }

/-- An environment of two devices in which the property read of device 0 in the peer access
phase returns the error status 1 while every other call succeeds. -/
def readFailureEnv : Env :=
  { sampleEnv 2 with peerProps := fun j => (if j = 0 then 1 else 0, sampleProp) }

/-- An environment of two healthy devices in which the snapshot of device 0 carries the
compute mode value 6. -/
def badModeEnv : Env :=
  { sampleEnv 2 with
    loopProps := fun dev => (0, if dev = 0 then { sampleProp with computeMode := 6 }
                                else sampleProp) }

/-- An environment of two devices in which every capability query returns the error
status 1 while every other call succeeds. -/
def queryFailureEnv : Env :=
  { sampleEnv 2 with canAccessPeer := fun _ _ => (1, 0) }

/-! ## Compute mode lookup -/

theorem consoleOut_append (a b : List Stmt) : consoleOut (a ++ b) = consoleOut a ++ consoleOut b := by
  simp [consoleOut]

theorem deviceBlock_last (env : Env) (dv rv : Int) (dev : Nat) (p : cudaDeviceProp) :
    (consoleOut (deviceBlock env dv rv dev p)).getLast? =
      some (Out.ofOption (piecesText [Piece.lit "     < ",
        Piece.entry Field.computeMode (sComputeModeAt p.computeMode), Piece.lit " >\n"])) := by
  simp [deviceBlock, consoleOut_append, blockPci, consoleOut, Stmt.out?]

/-- The output item of the compute mode line for the mode value `mode`. -/
theorem computeMode_line (env : Env) (dv rv : Int) (dev : Nat) (p : cudaDeviceProp)
    (label : String) (h : sComputeModeRead p.computeMode = some (some label)) :
    (consoleOut (deviceBlock env dv rv dev p)).getLast? =
      some (Out.text ("     < " ++ label ++ " >\n")) := by
  rw [deviceBlock_last]
  simp [piecesText, Piece.text, sComputeModeAt, h, Out.ofOption, String.append_assoc]

theorem computeMode_unspecified (env : Env) (dv rv : Int) (dev : Nat) (p : cudaDeviceProp)
    (h : sComputeModeAt p.computeMode = none) :
    (consoleOut (deviceBlock env dv rv dev p)).getLast? = some Out.unspecified := by
  rw [deviceBlock_last, h]
  simp [piecesText, Piece.text, Out.ofOption]

theorem sComputeModeRead_inRange (m : Int) (h0 : 0 ≤ m) (h4 : m ≤ 4) :
    ∃ label, sComputeModeRead m = some (some label) ∧ (m = 4 → label = "Unknown") := by
  interval_cases m <;> simp [sComputeModeRead, sComputeMode]

/-! ## Failure of the device count query -/

theorem peerPhase_stopped (env : Env) (s : State) (h : s.outcome.isSome = true) :
    peerPhase env s = s := by
  simp [peerPhase, h]

theorem summary_stopped (env : Env) (s : State) (h : s.outcome.isSome = true) :
    summary env s = s := by
  simp [summary, h]

/-! ## Unit conversions -/

theorem rne_of_dvd (n d : Nat) (hd : 0 < d) (h : d ∣ n) : rne n d = n / d := by
  have hm : n % d = 0 := Nat.mod_eq_zero_of_dvd h
  simp only [rne, hm]
  rw [if_neg (by omega)]

theorem bitLen_le (fuel : Nat) : ∀ n e : Nat, n < 2 ^ e → bitLen fuel n ≤ e := by
  induction fuel with
  | zero => intro n e _; simp [bitLen]
  | succ fuel ih =>
    intro n e h
    unfold bitLen
    by_cases hn : n = 0
    · simp [hn]
    · simp only [hn, if_false]
      cases e with
      | zero => simp at h; omega
      | succ e =>
        have : n / 2 < 2 ^ e := by
          rw [Nat.pow_succ] at h
          omega
        have := ih (n / 2) e this
        omega

theorem roundSig24_of_dvd (n : Nat) (h44 : n < 2 ^ 44) (hd : 2 ^ 20 ∣ n) : roundSig24 n = n := by
  unfold roundSig24
  have hlen := bitLen_le n n 44 h44
  by_cases h24 : bitLen n n ≤ 24
  · simp [h24]
  · simp only [h24, if_false]
    have hsh : bitLen n n - 24 ≤ 20 := by omega
    have hdvd : 2 ^ (bitLen n n - 24) ∣ n := Nat.dvd_trans (Nat.pow_dvd_pow 2 hsh) hd
    rw [rne_of_dvd n _ (Nat.pos_pow_of_pos _ (by decide)) hdvd]
    exact Nat.div_mul_cancel hdvd

theorem fmtF0_whole (k : Nat) : fmtF0 ⟨false, k * 2 ^ 20, 20⟩ = Nat.repr k := by
  simp only [fmtF0, F32.sign]
  rw [rne_of_dvd _ _ (by decide) (Nat.dvd_mul_left _ _)]
  simp

theorem expUp_spec (num den : Nat) : ∀ fuel k : Nat, den * 10 ^ k ≤ num →
    num < den * 10 ^ (k + fuel + 1) →
    den * 10 ^ (expUp num den fuel k) ≤ num ∧ num < den * 10 ^ (expUp num den fuel k + 1) := by
  intro fuel
  induction fuel with
  | zero => intro k h1 h2; exact ⟨h1, h2⟩
  | succ fuel ih =>
    intro k h1 h2
    unfold expUp
    by_cases h : den * 10 ^ (k + 1) ≤ num
    · simp only [h, if_true]
      exact ih (k + 1) h (by rw [show k + 1 + fuel + 1 = k + (fuel + 1) + 1 by omega]; exact h2)
    · simp only [h, if_false]
      exact ⟨h1, by omega⟩

theorem stripZeros_zeros (n : Nat) : stripZeros (List.replicate n '0') = [] := by
  simp only [stripZeros, List.reverse_replicate]
  have : List.dropWhile (fun c => c == '0') (List.replicate n '0') = [] := by
    induction n with
    | zero => rfl
    | succ n ih => simp [List.replicate_succ, List.dropWhile_cons, ih]
  simp [this]

theorem fmtG6_whole (k : Nat) (hk : k < 1000000) :
    fmtG6 ⟨false, k * 2 ^ 20, 20⟩ = Nat.repr k := by
  by_cases h0 : k = 0
  · subst h0; decide
  have hk1 : 1 ≤ k := Nat.pos_of_ne_zero h0
  have hspec := expUp_spec (k * 2 ^ 20) (2 ^ 20) (k * 2 ^ 20) 0 (by omega)
    (by
      have h1 : k * 2 ^ 20 < 10 ^ (k * 2 ^ 20) := Nat.lt_pow_self (by decide) _
      have h2 : 10 ^ (k * 2 ^ 20) ≤ 10 ^ (0 + k * 2 ^ 20 + 1) :=
        Nat.pow_le_pow_right (by decide) (by omega)
      have h3 : 10 ^ (0 + k * 2 ^ 20 + 1) ≤ 2 ^ 20 * 10 ^ (0 + k * 2 ^ 20 + 1) :=
        Nat.le_mul_of_pos_left _ (by decide)
      omega)
  generalize hr : expUp (k * 2 ^ 20) (2 ^ 20) (k * 2 ^ 20) 0 = r at hspec
  obtain ⟨hlo, hhi⟩ := hspec
  have hlo' : 10 ^ r ≤ k := by
    have : 2 ^ 20 * 10 ^ r ≤ 2 ^ 20 * k := by rw [Nat.mul_comm (2 ^ 20) k]; exact hlo
    exact Nat.le_of_mul_le_mul_left this (by decide)
  have hhi' : k < 10 ^ (r + 1) := by
    have : 2 ^ 20 * k < 2 ^ 20 * 10 ^ (r + 1) := by rw [Nat.mul_comm (2 ^ 20) k]; exact hhi
    exact Nat.lt_of_mul_lt_mul_left this
  have hr5 : r ≤ 5 := by
    by_contra hcon
    have : 10 ^ 6 ≤ 10 ^ r := Nat.pow_le_pow_right (by decide) (by omega)
    omega
  have hden : (2 : Nat) ^ 20 ≤ k * 2 ^ 20 := by omega
  have hnum : k * 2 ^ 20 ≠ 0 := by omega
  have hd0 : rne (k * 2 ^ 20 * 10 ^ (5 - r)) (2 ^ 20) = k * 10 ^ (5 - r) := by
    rw [rne_of_dvd _ _ (by decide) ⟨k * 10 ^ (5 - r), by ring⟩]
    rw [show k * 2 ^ 20 * 10 ^ (5 - r) = k * 10 ^ (5 - r) * 2 ^ 20 by ring]
    exact Nat.mul_div_cancel _ (by decide)
  have hlt : k * 10 ^ (5 - r) < 1000000 := by
    have h1 : k * 10 ^ (5 - r) < 10 ^ (r + 1) * 10 ^ (5 - r) :=
      Nat.mul_lt_mul_of_pos_right hhi' (Nat.pos_pow_of_pos _ (by decide))
    rw [← Nat.pow_add, show r + 1 + (5 - r) = 6 by omega] at h1
    exact h1
  have htoNat : (5 - (r : Int)).toNat = 5 - r := by omega
  have hdiv : k * 10 ^ (5 - r) / 10 ^ (5 - r) = k :=
    Nat.mul_div_cancel _ (Nat.pos_pow_of_pos _ (by decide))
  have hmod : k * 10 ^ (5 - r) % 10 ^ (5 - r) = 0 := Nat.mul_mod_left _ _
  have hfrac : stripZeros (zeroPad (5 - r) (Nat.repr 0)).data = [] := by
    have : (zeroPad (5 - r) (Nat.repr 0)).data = List.replicate (5 - r - 1 + 1) '0' := by
      simp [zeroPad, List.replicate_succ']
      rfl
    rw [this, stripZeros_zeros]
  simp only [fmtG6, decExp, hnum, if_false, hden, if_true, hr]
  have he : ((r : Nat) : Int) ≤ 5 := by omega
  simp only [he, if_true, htoNat, hd0, Nat.ne_of_lt hlt, if_false]
  have hrange : -4 ≤ (r : Int) ∧ (r : Int) < 6 := by omega
  simp only [hrange, and_self, if_true, htoNat, hdiv, hmod, withFraction, hfrac, F32.sign]
  simp

theorem memMBytes_whole (k : Nat) (hk : k < 1000000) :
    (F32.ofNat (k * 1048576)).divPow2 20 = ⟨false, k * 2 ^ 20, 20⟩ := by
  have h : roundSig24 (k * 1048576) = k * 2 ^ 20 :=
    roundSig24_of_dvd (k * 1048576) (by norm_num; omega) ⟨k, by ring⟩
  simp [F32.ofNat, F32.divPow2, h]

theorem float_args (env : Env) (dv rv : Int) (dev : Nat) (p : cudaDeviceProp) :
    (Field.totalGlobalMemMBytes, fmtF0 ((F32.ofNat p.totalGlobalMem).divPow2 20))
        ∈ consoleArgs (deviceBlock env dv rv dev p) ∧
    (Field.totalGlobalMemMBytes, fmtG6 ((F32.ofNat p.totalGlobalMem).divPow2 20))
        ∈ csvArgs (deviceBlock env dv rv dev p) ∧
    (Field.clockRateMHz, fmtF0 (F32.ofInt p.clockRate).mul1em3)
        ∈ consoleArgs (deviceBlock env dv rv dev p) ∧
    (Field.clockRateMHz, fmtG6 (F32.ofInt p.clockRate).mul1em3)
        ∈ csvArgs (deviceBlock env dv rv dev p) ∧
    (Field.memoryClockRateMHz, fmtF0 (F32.ofInt p.memoryClockRate).mul1em3)
        ∈ consoleArgs (deviceBlock env dv rv dev p) ∧
    (Field.memoryClockRateMHz, fmtG6 (F32.ofInt p.memoryClockRate).mul1em3)
        ∈ csvArgs (deviceBlock env dv rv dev p) := by
  simp [deviceBlock, blockHead, consoleArgs, csvArgs, Stmt.consoleArgs, Stmt.csvArgs]

/-! ## Lemmas on the render block, the loops and the peer access phase -/

theorem execAll_append (a b : List Stmt) (s : State) :
    execAll (a ++ b) s = execAll b (execAll a s) := by
  simp [execAll, List.foldl_append]

theorem execAll_cons (a : Stmt) (l : List Stmt) (s : State) :
    execAll (a :: l) s = execAll l (Stmt.exec s a) := rfl

theorem csvRows_append (a b : List Stmt) : csvRows (a ++ b) = csvRows a ++ csvRows b := by
  simp [csvRows]

theorem emit_eq (s : State) (o : Option String) :
    s.emit o = { s with stdout := s.stdout ++ [Out.ofOption o],
                        outcome := if o.isSome then s.outcome
                                   else some Outcome.undefinedBehaviour } := by
  cases o <;> rfl

theorem execAll_stdout (l : List Stmt) : ∀ s : State,
    (execAll l s).stdout = s.stdout ++ consoleOut l := by
  induction l with
  | nil => intro s; simp [execAll, consoleOut]
  | cons a l ih =>
    intro s
    rw [execAll_cons, ih]
    cases a <;> simp [Stmt.exec, emit_eq, consoleOut, Stmt.out?]
    split <;> simp

theorem exec_frame (s : State) (a : Stmt) :
    (Stmt.exec s a).driverVersion = s.driverVersion ∧
    (Stmt.exec s a).runtimeVersion = s.runtimeVersion ∧
    (Stmt.exec s a).rendered = s.rendered ∧
    (Stmt.exec s a).queries = s.queries := by
  cases a <;> simp [Stmt.exec, emit_eq]
  split <;> simp

theorem execAll_frame (l : List Stmt) : ∀ s : State,
    (execAll l s).driverVersion = s.driverVersion ∧
    (execAll l s).runtimeVersion = s.runtimeVersion ∧
    (execAll l s).rendered = s.rendered ∧
    (execAll l s).queries = s.queries := by
  induction l with
  | nil => intro s; simp [execAll]
  | cons a l ih =>
    intro s
    rw [execAll_cons]
    have h := ih (Stmt.exec s a)
    have h2 := exec_frame s a
    rw [h.1, h.2.1, h.2.2.1, h.2.2.2]
    exact h2

theorem exec_safe (s : State) (a : Stmt) (h : a.safe = true) :
    (Stmt.exec s a).outcome = s.outcome := by
  cases a with
  | printf ps => simp [Stmt.safe] at h; simp [Stmt.exec, emit_eq, h]
  | printfBuf n ps => simp [Stmt.safe] at h; simp [Stmt.exec, emit_eq, h]
  | openCsv => rfl
  | closeCsv => rfl
  | row label f t => simp only [Stmt.exec]; split <;> rfl

theorem execAll_safe (l : List Stmt) : ∀ s : State, l.all Stmt.safe = true →
    (execAll l s).outcome = s.outcome := by
  induction l with
  | nil => intro s _; rfl
  | cons a l ih =>
    intro s hall
    simp only [List.all_cons, Bool.and_eq_true] at hall
    rw [execAll_cons, ih _ hall.2, exec_safe s a hall.1]

theorem execAll_body (l : List Stmt) : ∀ s : State, s.csvOpen = true →
    l.all Stmt.isBody = true →
    (execAll l s).csv = s.csv ++ csvRows l ∧ (execAll l s).csvOpen = true := by
  induction l with
  | nil => intro s h _; simp [execAll, csvRows, h]
  | cons a l ih =>
    intro s hopen hall
    rw [execAll_cons]
    simp only [List.all_cons, Bool.and_eq_true] at hall
    cases a with
    | printf ps =>
      have := ih (Stmt.exec s (Stmt.printf ps)) (by simp [Stmt.exec, emit_eq, hopen]) hall.2
      simpa [Stmt.exec, emit_eq, csvRows, Stmt.row?] using this
    | printfBuf n ps =>
      have := ih (Stmt.exec s (Stmt.printfBuf n ps)) (by simp [Stmt.exec, emit_eq, hopen]) hall.2
      simpa [Stmt.exec, emit_eq, csvRows, Stmt.row?] using this
    | openCsv => simp [Stmt.isBody] at hall
    | closeCsv => simp [Stmt.isBody] at hall
    | row label f t =>
      have := ih (Stmt.exec s (Stmt.row label f t)) (by simp [Stmt.exec, hopen]) hall.2
      simpa [Stmt.exec, csvRows, Stmt.row?, hopen] using this

theorem blockL2_body (p : cudaDeviceProp) : (blockL2 p).all Stmt.isBody = true := by
  unfold blockL2; split <;> rfl

theorem deviceBlock_split (env : Env) (dv rv : Int) (dev : Nat) (p : cudaDeviceProp) :
    deviceBlock env dv rv dev p =
      Stmt.openCsv :: (((blockHead env dv rv dev p).tail ++ blockL2 p ++ blockTextures p
        ++ blockLimits p ++ blockFlags p ++ (blockPci p).take 4) ++ (blockPci p).drop 4) := by
  simp [deviceBlock, blockHead, blockPci]

theorem deviceBlock_mid_body (env : Env) (dv rv : Int) (dev : Nat) (p : cudaDeviceProp) :
    ((blockHead env dv rv dev p).tail ++ blockL2 p ++ blockTextures p
        ++ blockLimits p ++ blockFlags p ++ (blockPci p).take 4).all Stmt.isBody = true := by
  simp only [List.all_append, Bool.and_eq_true]
  exact ⟨⟨⟨⟨⟨rfl, blockL2_body p⟩, rfl⟩, rfl⟩, rfl⟩, rfl⟩

theorem blockL2_safe (p : cudaDeviceProp) : (blockL2 p).all Stmt.safe = true := by
  unfold blockL2; split <;> rfl

theorem deviceBlock_mid_safe (env : Env) (dv rv : Int) (dev : Nat) (p : cudaDeviceProp) :
    ((blockHead env dv rv dev p).tail ++ blockL2 p ++ blockTextures p
        ++ blockLimits p ++ blockFlags p ++ (blockPci p).take 4).all Stmt.safe = true := by
  simp only [List.all_append, Bool.and_eq_true]
  exact ⟨⟨⟨⟨⟨rfl, blockL2_safe p⟩, rfl⟩, rfl⟩, rfl⟩, rfl⟩

theorem deviceBlock_faults_last (env : Env) (dv rv : Int) (dev : Nat) (p : cudaDeviceProp) :
    ∃ init last, deviceBlock env dv rv dev p = init ++ [last] ∧
      init.all Stmt.safe = true := by
  refine ⟨Stmt.openCsv :: (((blockHead env dv rv dev p).tail ++ blockL2 p ++ blockTextures p
      ++ blockLimits p ++ blockFlags p ++ (blockPci p).take 4)
      ++ [Stmt.closeCsv, Stmt.printf [Piece.lit "  Compute Mode:\n"]]),
    Stmt.printf [Piece.lit "     < ",
      Piece.entry Field.computeMode (sComputeModeAt p.computeMode), Piece.lit " >\n"], ?_, ?_⟩
  · rw [deviceBlock_split]
    simp [blockPci]
  · rw [List.all_cons, List.all_append, deviceBlock_mid_safe]
    rfl

theorem execAll_blockEnd (p : cudaDeviceProp) (s : State) :
    (execAll ((blockPci p).drop 4) s).csv = s.csv ∧
    (execAll ((blockPci p).drop 4) s).csvOpen = false ∧
    (execAll ((blockPci p).drop 4) s).outcome =
      if (sComputeModeAt p.computeMode).isSome then s.outcome
      else some Outcome.undefinedBehaviour := by
  cases h : sComputeModeAt p.computeMode <;>
    simp [blockPci, execAll, Stmt.exec, emit_eq, piecesText, Piece.text, h]

theorem execAll_deviceBlock_csv (env : Env) (dv rv : Int) (dev : Nat) (p : cudaDeviceProp)
    (s : State) :
    (execAll (deviceBlock env dv rv dev p) s).csv = csvRows (deviceBlock env dv rv dev p) ∧
    (execAll (deviceBlock env dv rv dev p) s).csvOpen = false ∧
    (execAll (deviceBlock env dv rv dev p) s).outcome =
      if (sComputeModeAt p.computeMode).isSome then s.outcome
      else some Outcome.undefinedBehaviour := by
  rw [deviceBlock_split, execAll_cons, execAll_append]
  have h := execAll_body _ (Stmt.exec s Stmt.openCsv) (by simp [Stmt.exec])
    (deviceBlock_mid_body env dv rv dev p)
  have hsafe := execAll_safe _ (Stmt.exec s Stmt.openCsv) (deviceBlock_mid_safe env dv rv dev p)
  generalize execAll _ (Stmt.exec s Stmt.openCsv) = s2 at h hsafe
  have hrows : csvRows (Stmt.openCsv :: (((blockHead env dv rv dev p).tail ++ blockL2 p
        ++ blockTextures p ++ blockLimits p ++ blockFlags p ++ (blockPci p).take 4)
        ++ (blockPci p).drop 4)) = csvRows ((blockHead env dv rv dev p).tail ++ blockL2 p
        ++ blockTextures p ++ blockLimits p ++ blockFlags p ++ (blockPci p).take 4) := by
    have e : csvRows ((blockPci p).drop 4) = [] := rfl
    rw [show ∀ l, csvRows (Stmt.openCsv :: l) = csvRows l from fun l => rfl, csvRows_append, e,
      List.append_nil]
  rw [hrows]
  have h2 : (Stmt.exec s Stmt.openCsv).csv = [] := rfl
  have h3 : (Stmt.exec s Stmt.openCsv).outcome = s.outcome := rfl
  have he := execAll_blockEnd p s2
  refine ⟨?_, he.2.1, ?_⟩
  · rw [he.1, h.1, h2, List.nil_append]
  · rw [he.2.2, hsafe, h3]

theorem execAll_deviceBlock_eq (env : Env) (dv rv : Int) (dev : Nat) (p : cudaDeviceProp)
    (s : State) :
    execAll (deviceBlock env dv rv dev p) s =
      { stdout := s.stdout ++ consoleOut (deviceBlock env dv rv dev p),
        csv := csvRows (deviceBlock env dv rv dev p),
        csvOpen := false, driverVersion := s.driverVersion,
        runtimeVersion := s.runtimeVersion, rendered := s.rendered,
        queries := s.queries,
        outcome := if (sComputeModeAt p.computeMode).isSome then s.outcome
                   else some Outcome.undefinedBehaviour } := by
  have hf := execAll_frame (deviceBlock env dv rv dev p) s
  have hc := execAll_deviceBlock_csv env dv rv dev p s
  have ho := execAll_stdout (deviceBlock env dv rv dev p) s
  generalize execAll _ s = s2 at hf hc ho
  cases s2
  simp_all

theorem renderDevice_eq (env : Env) (dev : Nat) (s : State) :
    renderDevice env dev s =
      { stdout := s.stdout ++ consoleOut (blockOf env dev),
        csv := csvRows (blockOf env dev),
        csvOpen := false, driverVersion := env.driverVersion,
        runtimeVersion := env.runtimeVersion, rendered := s.rendered ++ [dev],
        queries := s.queries,
        outcome := if (sComputeModeAt (env.loopProps dev).2.computeMode).isSome then s.outcome
                   else some Outcome.undefinedBehaviour } := by
  unfold renderDevice blockOf
  simp only [execAll_deviceBlock_eq]

theorem sComputeModeAt_ok (m : Int) (h : computeModeOk m) :
    (sComputeModeAt m).isSome = true := by
  obtain ⟨label, hl, _⟩ := sComputeModeRead_inRange m h.1 h.2
  simp [sComputeModeAt, hl]

theorem sComputeModeAt_bad (m : Int) (h : ¬ computeModeOk m) : sComputeModeAt m = none := by
  unfold sComputeModeAt sComputeModeRead
  by_cases hneg : m < 0
  · simp [hneg]
  · have h5 : 5 ≤ m := by
      unfold computeModeOk at h
      omega
    simp only [hneg, if_false]
    by_cases h55 : m = 5
    · subst h55; rfl
    · have h6 : sComputeMode.length ≤ m.toNat := by
        have hl : sComputeMode.length = 6 := rfl
        omega
      rw [List.getElem?_eq_none h6]
      rfl

theorem renderStep_stopped (env : Env) (dev : Nat) (s : State) (h : s.outcome.isSome = true) :
    renderStep env dev s = s := by
  simp [renderStep, h]

theorem renderStep_ok (env : Env) (dev : Nat) (s : State) (h : s.outcome = none)
    (hok : computeModeOk (env.loopProps dev).2.computeMode) :
    renderStep env dev s =
      { stdout := s.stdout ++ consoleOut (blockOf env dev),
        csv := csvRows (blockOf env dev),
        csvOpen := false, driverVersion := env.driverVersion,
        runtimeVersion := env.runtimeVersion, rendered := s.rendered ++ [dev],
        queries := s.queries, outcome := none } := by
  simp [renderStep, h, renderDevice_eq, sComputeModeAt_ok _ hok]

theorem renderStep_bad (env : Env) (dev : Nat) (s : State) (h : s.outcome = none)
    (hbad : ¬ computeModeOk (env.loopProps dev).2.computeMode) :
    renderStep env dev s =
      { stdout := s.stdout ++ consoleOut (blockOf env dev),
        csv := csvRows (blockOf env dev),
        csvOpen := false, driverVersion := env.driverVersion,
        runtimeVersion := env.runtimeVersion, rendered := s.rendered ++ [dev],
        queries := s.queries, outcome := some Outcome.undefinedBehaviour } := by
  simp [renderStep, h, renderDevice_eq, sComputeModeAt_bad _ hbad]

theorem forLoop_eq_foldl {σ : Type} (bound : Nat) (body : Nat → σ → σ) :
    ∀ (fuel i : Nat) (s : σ), i + fuel ≤ bound →
      forLoop bound body fuel i s = (List.range' i fuel).foldl (fun s k => body k s) s := by
  intro fuel
  induction fuel with
  | zero => intro i s _; rfl
  | succ fuel ih =>
    intro i s h
    have hi : i < bound := by omega
    simp only [forLoop, hi, if_true, List.range'_succ, List.foldl_cons]
    exact ih (i + 1) (body i s) (by omega)

theorem forLoop_full {σ : Type} (bound : Nat) (body : Nat → σ → σ) (s : σ) :
    forLoop bound body bound 0 s = (List.range bound).foldl (fun s k => body k s) s := by
  rw [forLoop_eq_foldl bound body bound 0 s (by omega), List.range_eq_range']

theorem forLoop_upTo {σ : Type} (bound : Nat) (body : Nat → σ → σ) (s : σ) (t : Nat)
    (h : t ≤ bound) :
    forLoop bound body t 0 s = (List.range t).foldl (fun s k => body k s) s := by
  rw [forLoop_eq_foldl bound body t 0 s (by omega), List.range_eq_range']

theorem forLoop_fixed {σ : Type} (bound : Nat) (body : Nat → σ → σ) (s : σ)
    (h : ∀ i, body i s = s) : ∀ fuel i, forLoop bound body fuel i s = s := by
  intro fuel
  induction fuel with
  | zero => intro i; rfl
  | succ fuel ih =>
    intro i
    unfold forLoop
    split
    · rw [h i]; exact ih (i + 1)
    · rfl

theorem renderFold_stopped (env : Env) (l : List Nat) :
    ∀ s : State, s.outcome.isSome = true →
      l.foldl (fun s k => renderStep env k s) s = s := by
  induction l with
  | nil => intro s _; rfl
  | cons a l ih =>
    intro s h
    rw [List.foldl_cons, renderStep_stopped env a s h]
    exact ih s h

theorem renderAll_frame (env : Env) (l : List Nat) : ∀ s : State, s.outcome = none →
    (∀ d, d ∈ l → computeModeOk (env.loopProps d).2.computeMode) →
    l.foldl (fun s k => renderStep env k s) s = l.foldl (fun s k => renderDevice env k s) s ∧
    (l.foldl (fun s k => renderStep env k s) s).stdout
        = s.stdout ++ l.flatMap (fun dev => consoleOut (blockOf env dev)) ∧
    (l.foldl (fun s k => renderStep env k s) s).rendered = s.rendered ++ l ∧
    (l.foldl (fun s k => renderStep env k s) s).queries = s.queries ∧
    (l.foldl (fun s k => renderStep env k s) s).outcome = none := by
  induction l with
  | nil => intro s h _; simp [h]
  | cons a l ih =>
    intro s hs hok
    have ha := renderStep_ok env a s hs (hok a (by simp))
    have hd : renderDevice env a s = renderStep env a s := by simp [renderStep, hs]
    have h := ih (renderStep env a s) (by rw [ha]) (fun d hd => hok d (by simp [hd]))
    simp only [List.foldl_cons, List.flatMap_cons]
    rw [hd, h.2.1, h.2.2.1, h.2.2.2.1, h.2.2.2.2]
    refine ⟨h.1, ?_, ?_, ?_, rfl⟩
    · rw [ha]; simp
    · rw [ha]; simp
    · rw [ha]

theorem renderAll_outcome (env : Env) (l : List Nat) : ∀ s : State, s.outcome = none →
    ((l.foldl (fun s k => renderStep env k s) s).outcome = none ∧
      ∀ d, d ∈ l → computeModeOk (env.loopProps d).2.computeMode) ∨
    ((l.foldl (fun s k => renderStep env k s) s).outcome = some Outcome.undefinedBehaviour ∧
      ∃ d, d ∈ l ∧ ¬ computeModeOk (env.loopProps d).2.computeMode) := by
  induction l with
  | nil => intro s h; left; exact ⟨h, by simp⟩
  | cons a l ih =>
    intro s hs
    rw [List.foldl_cons]
    by_cases hok : computeModeOk (env.loopProps a).2.computeMode
    · have ha := renderStep_ok env a s hs hok
      rcases ih (renderStep env a s) (by rw [ha]) with ⟨h1, h2⟩ | ⟨h1, d, hd, h2⟩
      · left
        refine ⟨h1, ?_⟩
        intro d hd
        rcases List.mem_cons.mp hd with rfl | hd
        · exact hok
        · exact h2 d hd
      · right; exact ⟨h1, d, by simp [hd], h2⟩
    · have ha := renderStep_bad env a s hs hok
      right
      rw [renderFold_stopped env l _ (by rw [ha]; rfl), ha]
      exact ⟨rfl, a, by simp, hok⟩

theorem renderAll_stdout (env : Env) (l : List Nat) : ∀ s : State,
    ∃ rest, (l.foldl (fun s k => renderStep env k s) s).stdout = s.stdout ++ rest := by
  induction l with
  | nil => intro s; exact ⟨[], by simp⟩
  | cons a l ih =>
    intro s
    obtain ⟨r, hr⟩ := ih (renderStep env a s)
    rw [List.foldl_cons, hr]
    unfold renderStep
    split
    · exact ⟨r, rfl⟩
    · rw [renderDevice_eq]
      exact ⟨consoleOut (blockOf env a) ++ r, by simp⟩

theorem renderAll_last (env : Env) (l : List Nat) (d : Nat) (s : State) (hs : s.outcome = none)
    (hok : ∀ k, k ∈ l → computeModeOk (env.loopProps k).2.computeMode) :
    ((l ++ [d]).foldl (fun s k => renderStep env k s) s).csv = csvRows (blockOf env d) ∧
    ((l ++ [d]).foldl (fun s k => renderStep env k s) s).csvOpen = false ∧
    ((l ++ [d]).foldl (fun s k => renderStep env k s) s).driverVersion = env.driverVersion ∧
    ((l ++ [d]).foldl (fun s k => renderStep env k s) s).runtimeVersion
      = env.runtimeVersion := by
  have h := (renderAll_frame env l s hs hok).2.2.2.2
  simp only [List.foldl_append, List.foldl_cons, List.foldl_nil]
  generalize l.foldl (fun s k => renderStep env k s) s = X at h
  simp [renderStep, h, renderDevice_eq]

theorem deviceLoop_eq (env : Env) (s : State) :
    deviceLoop env s = (List.range env.deviceCount).foldl (fun s k => renderStep env k s) s := by
  simp [deviceLoop, forLoop_full]

theorem deviceLoop_stopped (env : Env) (s : State) (h : s.outcome.isSome = true) :
    deviceLoop env s = s := by
  rw [deviceLoop_eq, renderFold_stopped env _ s h]

theorem readSlot_set_self {α : Type} (a : List (Option α)) (i : Nat) (v : α) (h : i < a.length) :
    readSlot (a.set i (some v)) i = some v := by
  simp [readSlot, List.getElem?_set_self h]

theorem readSlot_set_other {α : Type} (a : List (Option α)) (i j : Nat) (v : α) (h : i ≠ j) :
    readSlot (a.set i (some v)) j = readSlot a j := by
  simp [readSlot, List.getElem?_set_ne h]

theorem writeSlot_eq {α : Type} (a : List (Option α)) (i : Nat) (v : α) (h : i < a.length) :
    writeSlot a i v = some (a.set i (some v)) := by
  simp [writeSlot, h]

theorem writeSlot_none {α : Type} (a : List (Option α)) (i : Nat) (v : α) (h : a.length ≤ i) :
    writeSlot a i v = none := by
  simp [writeSlot]; omega

theorem filterBody_stopped (env : Env) (i : Nat) (ps : Peer) (h : ps.st.outcome.isSome = true) :
    filterBody env i ps = ps := by
  simp [filterBody, h]

theorem pairBody_stopped (env : Env) (i j : Nat) (ps : Peer) (h : ps.st.outcome.isSome = true) :
    pairBody env i j ps = ps := by
  simp [pairBody, h]

/-- Filter body, running state with in-range index: explicit result. -/
theorem filterBody_running (env : Env) (i : Nat) (ps : Peer) (h : ps.st.outcome = none)
    (hp : ps.prop.length = 64) (hg : ps.gpuid.length = 64) (hi : i < 64)
    (hc : ps.gpu_p2p_count ≤ i) :
    filterBody env i ps =
      if (env.peerProps i).1 ≠ 0 then
        { ps with prop := ps.prop.set i (some (env.peerProps i).2) }.stop Outcome.exitFailure
      else if 2 ≤ (env.peerProps i).2.major then
        { ps with prop := ps.prop.set i (some (env.peerProps i).2),
                  gpuid := ps.gpuid.set ps.gpu_p2p_count (some i),
                  gpu_p2p_count := ps.gpu_p2p_count + 1 }
      else { ps with prop := ps.prop.set i (some (env.peerProps i).2) } := by
  unfold filterBody
  simp only [h, Option.isSome_none, Bool.false_eq_true, if_false]
  rw [writeSlot_eq _ _ _ (by omega)]
  simp only []
  by_cases hs : (env.peerProps i).1 ≠ 0
  · rw [if_pos hs, if_pos hs]
  · rw [if_neg hs, if_neg hs, readSlot_set_self _ _ _ (by omega)]
    by_cases hm : 2 ≤ (env.peerProps i).2.major
    · simp only [hm, if_true]
      rw [writeSlot_eq _ _ _ (by omega)]
    · simp only [hm, if_false]

theorem filterInv_init (s : State) (h : s.outcome = none) : FilterInv 0 (peerInit s) := by
  refine ⟨by simp [peerInit], by simp [peerInit], by simp [peerInit], ?_, ?_, ?_⟩
  · intro k hk; simp [peerInit] at hk
  · intro k1 k2 g1 g2 _ hk; simp [peerInit] at hk
  · simp [peerInit, h]

theorem filterInv_mono {b : Nat} {ps : Peer} (h : FilterInv b ps) : FilterInv (b + 1) ps := by
  obtain ⟨h1, h2, h3, h4, h5, h6⟩ := h
  refine ⟨h1, h2, by omega, ?_, h5, h6⟩
  intro k hk
  obtain ⟨g, hg, hlt, hp⟩ := h4 k hk
  exact ⟨g, hg, by omega, hp⟩

theorem isSome_readSlot_set {α : Type} (a : List (Option α)) (i g : Nat) (v : α)
    (hi : i < a.length) (h : g = i ∨ (readSlot a g).isSome = true) :
    (readSlot (a.set i (some v)) g).isSome = true := by
  by_cases hg : i = g
  · subst hg; rw [readSlot_set_self _ _ _ hi]; rfl
  · rw [readSlot_set_other _ _ _ _ hg]
    rcases h with h | h
    · exact absurd h.symm hg
    · exact h

theorem filterInv_step (env : Env) (i : Nat) (ps : Peer) (h : FilterInv i ps) (hi : i < 64) :
    FilterInv (i + 1) (filterBody env i ps) := by
  by_cases hrun : ps.st.outcome = none
  · obtain ⟨h1, h2, h3, h4, h5, h6⟩ := h
    rw [filterBody_running env i ps hrun h1 h2 hi h3]
    have hprop : ∀ k, k < ps.gpu_p2p_count →
        ∃ g, readSlot ps.gpuid k = some g ∧ g < i + 1 ∧
          (readSlot (ps.prop.set i (some (env.peerProps i).2)) g).isSome = true := by
      intro k hk
      obtain ⟨g, hg, hlt, hp⟩ := h4 k hk
      exact ⟨g, hg, by omega, isSome_readSlot_set _ _ _ _ (by omega) (Or.inr hp)⟩
    by_cases hs : (env.peerProps i).1 ≠ 0
    · rw [if_pos hs]
      exact ⟨by simp [Peer.stop, h1], by simp [Peer.stop, h2], by simp [Peer.stop]; omega,
        by simpa [Peer.stop] using hprop, by simpa [Peer.stop] using h5, by simp [Peer.stop]⟩
    · rw [if_neg hs]
      by_cases hm : 2 ≤ (env.peerProps i).2.major
      · rw [if_pos hm]
        refine ⟨by simp [h1], by simp [h2], by simp; omega, ?_, ?_, by simpa using h6⟩
        · intro k hk
          simp only at hk ⊢
          by_cases hkc : k = ps.gpu_p2p_count
          · subst hkc
            refine ⟨i, readSlot_set_self _ _ _ (by omega), by omega, ?_⟩
            exact isSome_readSlot_set _ _ _ _ (by omega) (Or.inl rfl)
          · obtain ⟨g, hg, hlt, hp⟩ := hprop k (by omega)
            refine ⟨g, ?_, hlt, hp⟩
            rw [readSlot_set_other _ _ _ _ (Ne.symm hkc)]; exact hg
        · intro k1 k2 g1 g2 hlt hk2 hg1 hg2
          simp only at hk2 hg1 hg2
          have hk1 : k1 < ps.gpu_p2p_count := by omega
          rw [readSlot_set_other _ _ _ _ (by omega)] at hg1
          by_cases hkc : k2 = ps.gpu_p2p_count
          · subst hkc
            rw [readSlot_set_self _ _ _ (by omega)] at hg2
            obtain ⟨g, hg, hgl, _⟩ := h4 k1 hk1
            have e1 : g = g1 := by rw [hg] at hg1; exact Option.some.inj hg1
            have e2 : i = g2 := Option.some.inj hg2
            omega
          · rw [readSlot_set_other _ _ _ _ (Ne.symm hkc)] at hg2
            exact h5 k1 k2 g1 g2 hlt (by omega) hg1 hg2
      · rw [if_neg hm]
        exact ⟨by simp [h1], by simp [h2], by simp; omega, by simpa using hprop,
          by simpa using h5, by simpa using h6⟩
  · have hsome : ps.st.outcome.isSome = true := by
      cases hc : ps.st.outcome with
      | none => exact absurd hc hrun
      | some o => rfl
    rw [filterBody_stopped env i ps hsome]
    exact filterInv_mono h

theorem filterInv_fold (env : Env) (s : State) (hs : s.outcome = none) :
    ∀ t, t ≤ 64 →
      FilterInv t ((List.range t).foldl (fun ps k => filterBody env k ps) (peerInit s)) := by
  intro t
  induction t with
  | zero => intro _; exact filterInv_init s hs
  | succ t ih =>
    intro ht
    rw [List.range_succ, List.foldl_append]
    exact filterInv_step env t _ (ih (by omega)) (by omega)

theorem peerCapable_succ_pos (env : Env) (i : Nat) (h : 2 ≤ (env.peerProps i).2.major) :
    peerCapable env (i + 1) = peerCapable env i ++ [i] := by
  simp [peerCapable, List.range_succ, List.filter_append, h]

theorem peerCapable_succ_neg (env : Env) (i : Nat) (h : ¬ 2 ≤ (env.peerProps i).2.major) :
    peerCapable env (i + 1) = peerCapable env i := by
  simp [peerCapable, List.range_succ, List.filter_append, h]

theorem peerCapable_length_le (env : Env) (i : Nat) : (peerCapable env i).length ≤ i := by
  have := List.length_filter_le (fun j => decide (2 ≤ (env.peerProps j).2.major)) (List.range i)
  simpa [peerCapable] using this

theorem filterTrack_init (env : Env) (s : State) : FilterTrack env s 0 (peerInit s) := by
  left
  refine ⟨by intro j hj; omega, rfl, by simp [peerInit], by simp [peerInit],
    by simp [peerInit, peerCapable], ?_, by intro j hj; omega⟩
  intro k hk
  simp [peerCapable] at hk

theorem filterTrack_step (env : Env) (s : State) (hs : s.outcome = none) (i : Nat) (ps : Peer)
    (h : FilterTrack env s i ps) (hi : i < 64) :
    FilterTrack env s (i + 1) (filterBody env i ps) := by
  rcases h with ⟨hall, hst, h1, h2, hc, hg, hp⟩ | ⟨⟨j, hj, hbad⟩, hst⟩
  · have hrun : ps.st.outcome = none := by rw [hst]; exact hs
    have hle := peerCapable_length_le env i
    rw [filterBody_running env i ps hrun h1 h2 hi (by omega)]
    have hprop : ∀ j, j < i + 1 →
        readSlot (ps.prop.set i (some (env.peerProps i).2)) j = some (env.peerProps j).2 := by
      intro j hj
      by_cases hji : j = i
      · subst hji; exact readSlot_set_self _ _ _ (by omega)
      · rw [readSlot_set_other _ _ _ _ (Ne.symm hji)]; exact hp j (by omega)
    by_cases hstat : (env.peerProps i).1 ≠ 0
    · rw [if_pos hstat]
      right
      exact ⟨⟨i, by omega, hstat⟩, by simp [Peer.stop, hst]⟩
    · rw [if_neg hstat]
      have hall2 : ∀ j, j < i + 1 → (env.peerProps j).1 = 0 := by
        intro j hj
        by_cases hji : j = i
        · subst hji; exact not_not.mp hstat
        · exact hall j (by omega)
      left
      by_cases hm : 2 ≤ (env.peerProps i).2.major
      · rw [if_pos hm, peerCapable_succ_pos env i hm]
        refine ⟨hall2, hst, by simp [h1], by simp [h2], by simp [hc], ?_, hprop⟩
        intro k hk
        simp only [List.length_append, List.length_singleton] at hk
        simp only
        by_cases hkc : k = (peerCapable env i).length
        · subst hkc
          rw [hc, readSlot_set_self _ _ _ (by omega)]
          simp
        · rw [readSlot_set_other _ _ _ _ (by omega), hg k (by omega),
            List.getElem?_append_left (by omega)]
      · rw [if_neg hm, peerCapable_succ_neg env i hm]
        exact ⟨hall2, hst, by simp [h1], by simp [h2], hc, hg, hprop⟩
  · have hsome : ps.st.outcome.isSome = true := by rw [hst]; rfl
    rw [filterBody_stopped env i ps hsome]
    right
    exact ⟨⟨j, by omega, hbad⟩, hst⟩

theorem filterTrack_fold (env : Env) (s : State) (hs : s.outcome = none) :
    ∀ t, t ≤ 64 →
      FilterTrack env s t ((List.range t).foldl (fun ps k => filterBody env k ps) (peerInit s)) := by
  intro t
  induction t with
  | zero => intro _; exact filterTrack_init env s
  | succ t ih =>
    intro ht
    rw [List.range_succ, List.foldl_append]
    exact filterTrack_step env s hs t _ (ih (by omega)) (by omega)

theorem pairBody_eq (env : Env) (l : List Nat) (i j : Nat) (ps : Peer)
    (h : ArraysHold env l ps) (hi : i < l.length) (hj : j < l.length) :
    pairBody env i j ps = { ps with st := pairStep env (l.getD i 0) (l.getD j 0) ps.st } := by
  have hgi : readSlot ps.gpuid i = some (l.getD i 0) := by
    rw [h.1 i hi]; simp [List.getD, List.getElem?_eq_getElem hi]
  have hgj : readSlot ps.gpuid j = some (l.getD j 0) := by
    rw [h.1 j hj]; simp [List.getD, List.getElem?_eq_getElem hj]
  have hmi : l.getD i 0 ∈ l := by
    simp [List.getD, List.getElem?_eq_getElem hi]
  have hmj : l.getD j 0 ∈ l := by
    simp [List.getD, List.getElem?_eq_getElem hj]
  generalize l.getD i 0 = a at hgi hmi
  generalize l.getD j 0 = b at hgj hmj
  unfold pairBody pairStep
  by_cases hrun : ps.st.outcome.isSome = true
  · simp [hrun]
  · simp only [hrun, if_false, hgi, hgj]
    by_cases hab : a = b
    · simp [hab]
    · simp only [hab, if_false, h.2 _ hmi, h.2 _ hmj]
      by_cases hq : (env.canAccessPeer a b).1 ≠ 0
      · rw [if_pos hq, if_pos hq]; simp [Peer.stop]
      · rw [if_neg hq, if_neg hq]; simp [State.print]

theorem pairBody_fold (env : Env) (l : List Nat) (i : Nat) (hi : i < l.length) :
    ∀ (js : List Nat) (ps : Peer), ArraysHold env l ps → (∀ j ∈ js, j < l.length) →
      js.foldl (fun ps j => pairBody env i j ps) ps =
        { ps with st := js.foldl (fun st j => pairStep env (l.getD i 0) (l.getD j 0) st) ps.st } := by
  intro js
  induction js with
  | nil => intro ps _ _; rfl
  | cons j js ih =>
    intro ps hgood hjs
    simp only [List.foldl_cons]
    rw [pairBody_eq env l i j ps hgood hi (hjs j (by simp))]
    rw [ih _ (by exact ⟨hgood.1, hgood.2⟩) (fun k hk => hjs k (by simp [hk]))]

theorem foldl_range_getD {σ : Type} (f : Nat → σ → σ) : ∀ (l : List Nat) (s : σ),
    (List.range l.length).foldl (fun s j => f (l.getD j 0) s) s = l.foldl (fun s b => f b s) s := by
  intro l
  induction l with
  | nil => intro s; rfl
  | cons a l ih =>
    intro s
    rw [List.length_cons, List.range_succ_eq_map, List.foldl_cons, List.foldl_map]
    simp only [List.getD_cons_zero, List.getD_cons_succ, List.foldl_cons]
    exact ih (f a s)

theorem pairInner_eq (env : Env) (l : List Nat) (i : Nat) (hi : i < l.length) (ps : Peer)
    (h : ArraysHold env l ps) :
    (List.range l.length).foldl (fun ps j => pairBody env i j ps) ps =
      { ps with st := l.foldl (fun st b => pairStep env (l.getD i 0) b st) ps.st } := by
  rw [pairBody_fold env l i hi (List.range l.length) ps h (fun j hj => List.mem_range.mp hj)]
  rw [foldl_range_getD (fun b st => pairStep env (l.getD i 0) b st) l ps.st]

theorem pairOuter_fold (env : Env) (l : List Nat) :
    ∀ (idxs : List Nat) (ps : Peer), ArraysHold env l ps → (∀ i ∈ idxs, i < l.length) →
      idxs.foldl (fun ps1 i => (List.range l.length).foldl (fun ps j => pairBody env i j ps) ps1) ps =
        { ps with st := (idxs.foldl
            (fun st i => l.foldl (fun st b => pairStep env (l.getD i 0) b st) st) ps.st) } := by
  intro idxs
  induction idxs with
  | nil => intro ps _ _; rfl
  | cons i idxs ih =>
    intro ps hgood his
    simp only [List.foldl_cons]
    rw [pairInner_eq env l i (his i (by simp)) ps hgood]
    exact ih _ ⟨hgood.1, hgood.2⟩ (fun k hk => his k (by simp [hk]))

theorem pairLoops_st (env : Env) (l : List Nat) (ps : Peer) (h : ArraysHold env l ps)
    (hc : ps.gpu_p2p_count = l.length) :
    (pairLoops env ps).st = pairsRun env l ps.st := by
  unfold pairLoops pairsRun
  rw [hc, forLoop_full]
  simp only [forLoop_full]
  rw [pairOuter_fold env l (List.range l.length) ps h (fun i hi => List.mem_range.mp hi)]
  exact foldl_range_getD (fun a st => l.foldl (fun st b => pairStep env a b st) st) l ps.st

theorem foldl_flatMap_eq {α β σ : Type} (f : α → List β) (g : σ → β → σ) :
    ∀ (xs : List α) (s : σ),
      (xs.flatMap f).foldl g s = xs.foldl (fun s x => (f x).foldl g s) s := by
  intro xs
  induction xs with
  | nil => intro s; rfl
  | cons x xs ih => intro s; simp [List.flatMap_cons, List.foldl_append, ih]

theorem pairsRun_eq (env : Env) (l : List Nat) (st : State) :
    pairsRun env l st = (allPairs l).foldl (fun st ab => pairStep env ab.1 ab.2 st) st := by
  unfold pairsRun allPairs
  rw [foldl_flatMap_eq]
  simp only [List.foldl_map]

theorem allPairs_filter (l : List Nat) :
    (allPairs l).filter (fun ab => decide (ab.1 ≠ ab.2)) = orderedPairs l := by
  unfold allPairs orderedPairs
  rw [List.filter_flatMap]
  congr 1
  funext a
  rw [List.filter_map]
  rfl

theorem pairStep_stopped (env : Env) (a b : Nat) (st : State) (h : st.outcome.isSome = true) :
    pairStep env a b st = st := by
  simp [pairStep, h]

theorem pairsFold_stopped (env : Env) (pp : List (Nat × Nat)) :
    ∀ st : State, st.outcome.isSome = true →
      pp.foldl (fun st ab => pairStep env ab.1 ab.2 st) st = st := by
  induction pp with
  | nil => intro st _; rfl
  | cons ab pp ih =>
    intro st h
    rw [List.foldl_cons, pairStep_stopped env _ _ st h]
    exact ih st h

theorem pairsFold_ok (env : Env) (pp : List (Nat × Nat)) :
    ∀ st : State, st.outcome = none →
      (∀ ab ∈ pp, ab.1 ≠ ab.2 → (env.canAccessPeer ab.1 ab.2).1 = 0) →
      pp.foldl (fun st ab => pairStep env ab.1 ab.2 st) st =
        { st with
          queries := st.queries ++ pp.filter (fun ab => decide (ab.1 ≠ ab.2)),
          stdout := st.stdout ++ (pp.filter (fun ab => decide (ab.1 ≠ ab.2))).map (peerOut env) } := by
  induction pp with
  | nil => intro st _ _; simp
  | cons ab pp ih =>
    intro st hrun hok
    rw [List.foldl_cons]
    by_cases hab : ab.1 = ab.2
    · have hstep : pairStep env ab.1 ab.2 st = st := by simp [pairStep, hab]
      rw [hstep, ih st hrun (fun x hx => hok x (by simp [hx]))]
      simp [List.filter_cons, hab]
    · have hq := hok ab (by simp) hab
      have hstep : pairStep env ab.1 ab.2 st =
          { st with queries := st.queries ++ [(ab.1, ab.2)],
                    stdout := st.stdout ++ [peerOut env ab] } := by
        simp [pairStep, hrun, hab, hq, peerOut]
      rw [hstep, ih _ (by simpa using hrun) (fun x hx => hok x (by simp [hx]))]
      simp [List.filter_cons, hab]

theorem pairsFold_outcome (env : Env) (pp : List (Nat × Nat)) :
    ∀ st : State, st.outcome = none →
      ((pp.foldl (fun st ab => pairStep env ab.1 ab.2 st) st).outcome = none ∧
        ∀ ab ∈ pp, ab.1 ≠ ab.2 → (env.canAccessPeer ab.1 ab.2).1 = 0) ∨
      ((pp.foldl (fun st ab => pairStep env ab.1 ab.2 st) st).outcome = some Outcome.exitFailure ∧
        ∃ ab ∈ pp, ab.1 ≠ ab.2 ∧ (env.canAccessPeer ab.1 ab.2).1 ≠ 0) := by
  induction pp with
  | nil => intro st h; left; exact ⟨h, by simp⟩
  | cons ab pp ih =>
    intro st hrun
    rw [List.foldl_cons]
    by_cases hab : ab.1 = ab.2
    · have hstep : pairStep env ab.1 ab.2 st = st := by simp [pairStep, hab]
      rw [hstep]
      rcases ih st hrun with ⟨h1, h2⟩ | ⟨h1, x, hx, h2⟩
      · left
        refine ⟨h1, ?_⟩
        intro y hy hne
        rcases List.mem_cons.mp hy with rfl | hy
        · exact absurd hab hne
        · exact h2 y hy hne
      · right; exact ⟨h1, x, by simp [hx], h2⟩
    · by_cases hq : (env.canAccessPeer ab.1 ab.2).1 = 0
      · have hstep : (pairStep env ab.1 ab.2 st).outcome = none := by
          simp [pairStep, hrun, hab, hq]
        rcases ih _ hstep with ⟨h1, h2⟩ | ⟨h1, x, hx, h2⟩
        · left
          refine ⟨h1, ?_⟩
          intro y hy hne
          rcases List.mem_cons.mp hy with rfl | hy
          · exact hq
          · exact h2 y hy hne
        · right; exact ⟨h1, x, by simp [hx], h2⟩
      · have hstep : (pairStep env ab.1 ab.2 st).outcome = some Outcome.exitFailure := by
          simp [pairStep, hrun, hab, hq]
        right
        rw [pairsFold_stopped env pp _ (by rw [hstep]; rfl)]
        exact ⟨hstep, ab, by simp, hab, hq⟩

theorem pairLoops_stopped (env : Env) (ps : Peer) (h : ps.st.outcome.isSome = true) :
    pairLoops env ps = ps := by
  unfold pairLoops
  apply forLoop_fixed
  intro i
  apply forLoop_fixed
  intro j
  exact pairBody_stopped env i j ps h

theorem filterLoop_eq (env : Env) (s : State) :
    filterLoop env s =
      (List.range env.deviceCount).foldl (fun ps k => filterBody env k ps) (peerInit s) := by
  unfold filterLoop
  rw [forLoop_full]

theorem mem_peerCapable (env : Env) (n g : Nat) :
    g ∈ peerCapable env n ↔ g < n ∧ 2 ≤ (env.peerProps g).2.major := by
  simp [peerCapable]

theorem pairsRun_short (env : Env) (l : List Nat) (st : State) (h : l.length < 2) :
    pairsRun env l st = st := by
  match l, h with
  | [], _ => rfl
  | [a], _ => simp [pairsRun, pairStep]

theorem peerPhase_few (env : Env) (s : State) (h : env.deviceCount < 2) : peerPhase env s = s := by
  unfold peerPhase
  split
  · rfl
  · rw [if_neg (by omega)]

theorem peerPhase_readFailure (env : Env) (s : State) (hs : s.outcome = none)
    (h2 : 2 ≤ env.deviceCount) (h64 : env.deviceCount ≤ 64)
    (hbad : ∃ j, j < env.deviceCount ∧ (env.peerProps j).1 ≠ 0) :
    peerPhase env s = { s with outcome := some Outcome.exitFailure } := by
  have ht := filterTrack_fold env s hs env.deviceCount h64
  rw [← filterLoop_eq] at ht
  rcases ht with ⟨hall, _⟩ | ⟨_, hst⟩
  · obtain ⟨j, hj, hne⟩ := hbad
    exact absurd (hall j hj) hne
  · unfold peerPhase
    simp only [hs, Option.isSome_none, Bool.false_eq_true, if_false, h2, if_true]
    have hstop : (filterLoop env s).st.outcome.isSome = true := by rw [hst]; rfl
    rw [pairLoops_stopped env _ hstop]
    simp [hst]

theorem peerPhase_readsOk (env : Env) (s : State) (hs : s.outcome = none)
    (h2 : 2 ≤ env.deviceCount) (h64 : env.deviceCount ≤ 64)
    (hok : ∀ j, j < env.deviceCount → (env.peerProps j).1 = 0) :
    peerPhase env s = pairsRun env (peerCapable env env.deviceCount) s := by
  have ht := filterTrack_fold env s hs env.deviceCount h64
  rw [← filterLoop_eq] at ht
  rcases ht with ⟨_, hst, _, _, hc, hg, hp⟩ | ⟨⟨j, hj, hne⟩, _⟩
  · unfold peerPhase
    simp only [hs, Option.isSome_none, Bool.false_eq_true, if_false, h2, if_true]
    have hold : ArraysHold env (peerCapable env env.deviceCount) (filterLoop env s) :=
      ⟨hg, fun g hg2 => hp g ((mem_peerCapable env _ g).mp hg2).1⟩
    by_cases hcount : 2 ≤ (filterLoop env s).gpu_p2p_count
    · rw [if_pos hcount, pairLoops_st env _ _ hold hc, hst]
    · rw [if_neg hcount, hst, pairsRun_short env _ s (by omega)]
  · exact absurd (hok j hj) hne

theorem filterFold_stopped (env : Env) (l : List Nat) :
    ∀ ps : Peer, ps.st.outcome.isSome = true →
      l.foldl (fun ps k => filterBody env k ps) ps = ps := by
  induction l with
  | nil => intro ps _; rfl
  | cons a l ih =>
    intro ps h
    rw [List.foldl_cons, filterBody_stopped env a ps h]
    exact ih ps h

theorem filterBody_overflow (env : Env) (ps : Peer) (h : ps.st.outcome = none)
    (hp : ps.prop.length = 64) :
    filterBody env 64 ps = ps.stop Outcome.undefinedBehaviour := by
  unfold filterBody
  simp only [h, Option.isSome_none, Bool.false_eq_true, if_false]
  rw [writeSlot_none _ _ _ (by omega)]

theorem peerPhase_overflow (env : Env) (s : State) (hs : s.outcome = none)
    (h : 64 < env.deviceCount) (hok : ∀ j, j < 64 → (env.peerProps j).1 = 0) :
    peerPhase env s = { s with outcome := some Outcome.undefinedBehaviour } := by
  have ht := filterTrack_fold env s hs 64 (by omega)
  have hsplit : List.range env.deviceCount =
      List.range 64 ++ 64 :: List.range' 65 (env.deviceCount - 65) := by
    obtain ⟨k, hk⟩ : ∃ k, env.deviceCount = 65 + k := ⟨env.deviceCount - 65, by omega⟩
    rw [hk, show 65 + k - 65 = k by omega, List.range_eq_range', List.range_eq_range']
    have e1 : List.range' 0 (65 + k) = List.range' 0 64 ++ List.range' (0 + 64) (k + 1) := by
      rw [List.range'_append_1]; congr 1; omega
    have e2 : List.range' (0 + 64) (k + 1) = 64 :: List.range' 65 k := by
      rw [List.range'_succ]
    rw [e1, e2]
  rcases ht with ⟨_, hst, hlen, _, _, _, _⟩ | ⟨⟨j, hj, hne⟩, _⟩
  · have hrun : ((List.range 64).foldl (fun ps k => filterBody env k ps) (peerInit s)).st.outcome
        = none := by rw [hst]; exact hs
    have hfl : (filterLoop env s).st = { s with outcome := some Outcome.undefinedBehaviour } := by
      rw [filterLoop_eq, hsplit, List.foldl_append, List.foldl_cons,
        filterBody_overflow env _ hrun hlen, filterFold_stopped env _ _ (by simp [Peer.stop])]
      simp [Peer.stop, hst]
    unfold peerPhase
    have h2 : 2 ≤ env.deviceCount := by omega
    simp only [hs, Option.isSome_none, Bool.false_eq_true, if_false, h2, if_true]
    rw [pairLoops_stopped env _ (by rw [hfl]; rfl)]
    simp [hfl]
  · exact absurd (hok j hj) hne

theorem forLoop_inv {σ : Type} (P : σ → Prop) (bound : Nat) (body : Nat → σ → σ)
    (hbody : ∀ i s, P s → P (body i s)) : ∀ fuel i s, P s → P (forLoop bound body fuel i s) := by
  intro fuel
  induction fuel with
  | zero => intro i s h; exact h
  | succ fuel ih =>
    intro i s h
    unfold forLoop
    split
    · exact ih (i + 1) _ (hbody i s h)
    · exact h

theorem filterBody_sameFile (env : Env) (s : State) (i : Nat) (ps : Peer)
    (h : SameFile s ps.st) : SameFile s (filterBody env i ps).st := by
  unfold filterBody
  split
  · exact h
  · split
    · exact h
    · split
      · exact h
      · split
        · exact h
        · split
          · split
            · exact h
            · exact h
          · exact h

theorem pairBody_sameFile (env : Env) (s : State) (i j : Nat) (ps : Peer)
    (h : SameFile s ps.st) : SameFile s (pairBody env i j ps).st := by
  unfold pairBody
  split
  · exact h
  · split
    · split
      · exact h
      · split
        · exact h
        · split
          · exact h
          · exact h
    · exact h

theorem peerPhase_sameFile (env : Env) (s : State) : SameFile s (peerPhase env s) := by
  have h0 : SameFile s s := ⟨rfl, rfl, rfl, rfl, rfl⟩
  have hf : SameFile s (filterLoop env s).st :=
    forLoop_inv (fun ps : Peer => SameFile s ps.st) _ _ (filterBody_sameFile env s) _ _ _ h0
  unfold peerPhase
  split
  · exact h0
  · split
    · simp only
      split
      · exact forLoop_inv (fun ps : Peer => SameFile s ps.st) _ _
          (fun i ps h => forLoop_inv (fun ps : Peer => SameFile s ps.st) _ _
            (pairBody_sameFile env s i) _ _ _ h) _ _ _ hf
      · exact hf
    · exact h0

theorem enumerate_ok (env : Env) (csv0 : List String) (h : env.countStatus = 0) :
    enumerate env (initialState csv0) =
      { initialState csv0 with
        stdout := [Out.text (env.argv0 ++ " Starting...\n\n"),
          Out.text " CUDA Device Query (Runtime API) version (CUDART static linking)\n\n",
          Out.text (if env.deviceCount = 0
            then "There are no available device(s) that support CUDA\n"
            else "Detected " ++ fmtD env.deviceCount ++ " CUDA Capable device(s)\n")] } := by
  unfold enumerate
  by_cases h0 : env.deviceCount = 0
  · simp [h, h0, State.print, initialState]
  · simp [h, h0, State.print, initialState]

theorem enumerate_running (env : Env) (csv0 : List String) (h : env.countStatus = 0) :
    (enumerate env (initialState csv0)).outcome = none := by
  rw [enumerate_ok env csv0 h]; rfl

theorem afterLoop_eq (env : Env) (csv0 : List String) :
    afterLoop env csv0 = (List.range env.deviceCount).foldl (fun s dev => renderStep env dev s)
      (enumerate env (initialState csv0)) :=
  deviceLoop_eq env _

theorem afterLoop_frame (env : Env) (csv0 : List String) (h : env.countStatus = 0)
    (hok : loopModesOk env) :
    (afterLoop env csv0).stdout =
      [Out.text (env.argv0 ++ " Starting...\n\n"),
       Out.text " CUDA Device Query (Runtime API) version (CUDART static linking)\n\n",
       Out.text (if env.deviceCount = 0
          then "There are no available device(s) that support CUDA\n"
          else "Detected " ++ fmtD env.deviceCount ++ " CUDA Capable device(s)\n")]
        ++ (List.range env.deviceCount).flatMap (fun dev => consoleOut (blockOf env dev)) ∧
    (afterLoop env csv0).rendered = List.range env.deviceCount ∧
    (afterLoop env csv0).queries = [] ∧
    (afterLoop env csv0).outcome = none := by
  rw [afterLoop_eq env csv0]
  have hf := renderAll_frame env (List.range env.deviceCount) (enumerate env (initialState csv0))
    (enumerate_running env csv0 h) (fun d hd => hok d (List.mem_range.mp hd))
  rw [hf.2.1, hf.2.2.1, hf.2.2.2.1, hf.2.2.2.2, enumerate_ok env csv0 h]
  simp [initialState]

theorem afterLoop_outcome (env : Env) (csv0 : List String) (h : env.countStatus = 0) :
    ((afterLoop env csv0).outcome = none ∧ loopModesOk env) ∨
    ((afterLoop env csv0).outcome = some Outcome.undefinedBehaviour ∧ ¬ loopModesOk env) := by
  rw [afterLoop_eq env csv0]
  rcases renderAll_outcome env (List.range env.deviceCount) (enumerate env (initialState csv0))
    (enumerate_running env csv0 h) with ⟨h1, h2⟩ | ⟨h1, d, hd, h2⟩
  · left; exact ⟨h1, fun d hd => h2 d (List.mem_range.mpr hd)⟩
  · right; exact ⟨h1, fun hok => h2 (hok d (List.mem_range.mp hd))⟩

theorem afterLoop_sameQueries (env : Env) (csv0 : List String) :
    (afterLoop env csv0).queries = [] := by
  rw [afterLoop_eq env csv0]
  have key : ∀ (l : List Nat) (s : State),
      (l.foldl (fun s dev => renderStep env dev s) s).queries = s.queries := by
    intro l
    induction l with
    | nil => intro s; rfl
    | cons a l ih =>
      intro s
      rw [List.foldl_cons, ih]
      unfold renderStep
      split
      · rfl
      · rw [renderDevice_eq]
  rw [key]
  unfold enumerate
  split
  · rfl
  · split <;> rfl

theorem afterLoop_last (env : Env) (csv0 : List String) (h : env.countStatus = 0)
    (hN : 1 ≤ env.deviceCount)
    (hok : ∀ dev, dev + 1 < env.deviceCount → computeModeOk (env.loopProps dev).2.computeMode) :
    (afterLoop env csv0).csv = csvRows (blockOf env (env.deviceCount - 1)) ∧
    (afterLoop env csv0).driverVersion = env.driverVersion ∧
    (afterLoop env csv0).runtimeVersion = env.runtimeVersion := by
  rw [afterLoop_eq env csv0]
  obtain ⟨n, hn⟩ : ∃ n, env.deviceCount = n + 1 := ⟨env.deviceCount - 1, by omega⟩
  rw [hn] at hok
  rw [hn, List.range_succ, show n + 1 - 1 = n by omega]
  have hl := renderAll_last env (List.range n) n (enumerate env (initialState csv0))
    (enumerate_running env csv0 h) (fun d hd => hok d (by have := List.mem_range.mp hd; omega))
  exact ⟨hl.1, hl.2.2.1, hl.2.2.2⟩

theorem afterLoop_none (env : Env) (csv0 : List String) (h : env.countStatus = 0)
    (hN : env.deviceCount = 0) :
    (afterLoop env csv0).csv = csv0 ∧ (afterLoop env csv0).driverVersion = 0 ∧
    (afterLoop env csv0).runtimeVersion = 0 := by
  rw [afterLoop_eq env csv0, hN, enumerate_ok env csv0 h]
  simp [initialState]

theorem main_eq (env : Env) (csv0 : List String) :
    main env csv0 = summary env (peerPhase env (afterLoop env csv0)) := rfl

theorem summary_sameFile (env : Env) (s : State) :
    (summary env s).csv = s.csv ∧ (summary env s).rendered = s.rendered ∧
    (summary env s).queries = s.queries := by
  unfold summary
  split <;> simp [State.print]

theorem summary_outcome (env : Env) (s : State) :
    (summary env s).outcome = some (s.outcome.getD Outcome.exitSuccess) := by
  unfold summary
  cases h : s.outcome <;> simp [h]

theorem summary_running (env : Env) (s : State) (h : s.outcome = none) :
    (summary env s).stdout = s.stdout ++ [Out.text "\n",
      Out.text (sProfileString s.driverVersion s.runtimeVersion env.deviceCount),
      Out.text "Result = PASS\n"] := by
  simp [summary, h, State.print]

theorem filterBody_stdout (env : Env) (i : Nat) (ps : Peer) :
    (filterBody env i ps).st.stdout = ps.st.stdout := by
  unfold filterBody
  split
  · rfl
  · split
    · rfl
    · split
      · rfl
      · split
        · rfl
        · split
          · split <;> rfl
          · rfl

theorem pairBody_stdout (env : Env) (i j : Nat) (ps : Peer) :
    ∃ rest, (pairBody env i j ps).st.stdout = ps.st.stdout ++ rest := by
  unfold pairBody
  split
  · exact ⟨[], by simp⟩
  · split
    · split
      · exact ⟨[], by simp⟩
      · split
        · exact ⟨[], by simp [Peer.stop]⟩
        · split
          · exact ⟨_, rfl⟩
          · exact ⟨[], by simp [Peer.stop]⟩
    · exact ⟨[], by simp [Peer.stop]⟩

theorem peerPhase_stdout (env : Env) (s : State) :
    ∃ rest, (peerPhase env s).stdout = s.stdout ++ rest := by
  have h0 : ∃ rest, s.stdout = s.stdout ++ rest := ⟨[], by simp⟩
  have hf : ∃ rest, (filterLoop env s).st.stdout = s.stdout ++ rest :=
    forLoop_inv (fun ps : Peer => ∃ rest, ps.st.stdout = s.stdout ++ rest) _ _
      (fun i ps h => by
        show ∃ rest, (filterBody env i ps).st.stdout = s.stdout ++ rest
        rw [filterBody_stdout]; exact h) _ _ _ h0
  have hstep : ∀ i j (ps : Peer), (∃ rest, ps.st.stdout = s.stdout ++ rest) →
      ∃ rest, (pairBody env i j ps).st.stdout = s.stdout ++ rest := by
    intro i j ps ⟨r1, h1⟩
    obtain ⟨r2, h2⟩ := pairBody_stdout env i j ps
    exact ⟨r1 ++ r2, by rw [h2, h1, List.append_assoc]⟩
  unfold peerPhase
  split
  · exact h0
  · split
    · simp only
      split
      · exact forLoop_inv (fun ps : Peer => ∃ rest, ps.st.stdout = s.stdout ++ rest) _ _
          (fun i ps h => forLoop_inv (fun ps : Peer => ∃ rest, ps.st.stdout = s.stdout ++ rest)
            _ _ (hstep i) _ _ _ h) _ _ _ hf
      · exact hf
    · exact h0

theorem main_stdout (env : Env) (csv0 : List String) :
    ∃ rest, (main env csv0).stdout = (afterLoop env csv0).stdout ++ rest := by
  obtain ⟨r, hr⟩ := peerPhase_stdout env (afterLoop env csv0)
  rw [main_eq]
  unfold summary
  split
  · exact ⟨r, hr⟩
  · exact ⟨r ++ [Out.text "\n", Out.text (sProfileString (peerPhase env (afterLoop env csv0)).driverVersion
      (peerPhase env (afterLoop env csv0)).runtimeVersion env.deviceCount), Out.text "Result = PASS\n"],
      by simp [State.print, hr]⟩

theorem main_sameFile (env : Env) (csv0 : List String) :
    (main env csv0).csv = (afterLoop env csv0).csv ∧
    (main env csv0).rendered = (afterLoop env csv0).rendered := by
  have h1 := summary_sameFile env (peerPhase env (afterLoop env csv0))
  have h2 := peerPhase_sameFile env (afterLoop env csv0)
  rw [main_eq, h1.1, h1.2.1, h2.1, h2.2.2.2.2]
  exact ⟨rfl, rfl⟩

theorem mem_orderedPairs (l : List Nat) (a b : Nat) :
    (a, b) ∈ orderedPairs l ↔ a ∈ l ∧ b ∈ l ∧ a ≠ b := by
  simp [orderedPairs]

theorem orderedPairs_nodup (l : List Nat) (h : l.Nodup) : (orderedPairs l).Nodup := by
  unfold orderedPairs
  rw [List.nodup_flatMap]
  constructor
  · intro a _
    exact (h.filter _).map (fun x y hxy => by simpa using hxy)
  · refine List.Pairwise.imp ?_ h
    intro a b hab x hx hy
    simp only [List.mem_map, List.mem_filter] at hx hy
    obtain ⟨_, _, rfl⟩ := hx
    obtain ⟨_, _, he⟩ := hy
    exact hab (by simpa using (congrArg Prod.fst he).symm)

theorem length_filter_ne (l : List Nat) (h : l.Nodup) (a : Nat) (ha : a ∈ l) :
    (l.filter (fun b => decide (a ≠ b))).length = l.length - 1 := by
  have e : l.filter (fun b => decide (a ≠ b)) = l.erase a := by
    rw [h.erase_eq_filter]
    apply List.filter_congr
    intro x _
    by_cases hx : a = x
    · simp [hx]
    · have hx2 : x ≠ a := fun e => hx e.symm
      simp [hx, hx2]
  rw [e, List.length_erase_of_mem ha]

theorem orderedPairs_length (l : List Nat) (h : l.Nodup) :
    (orderedPairs l).length = l.length * (l.length - 1) := by
  unfold orderedPairs
  rw [List.length_flatMap]
  have e : List.map (fun a => (List.map (fun b => (a, b))
      (l.filter (fun b => decide (a ≠ b)))).length) l = List.map (fun _ => l.length - 1) l := by
    apply List.map_congr_left
    intro a ha
    rw [List.length_map, length_filter_ne l h a ha]
  simp only [Function.comp_def] at e ⊢
  rw [e]
  simp

theorem orderedPairs_sorted (l : List Nat) (h : l.Pairwise (fun a b => a < b)) :
    (orderedPairs l).Pairwise (fun x y => x.1 < y.1 ∨ (x.1 = y.1 ∧ x.2 < y.2)) := by
  unfold orderedPairs
  rw [List.pairwise_flatMap]
  constructor
  · intro a _
    rw [List.pairwise_map]
    exact (h.filter _).imp (fun hlt => Or.inr ⟨rfl, hlt⟩)
  · refine h.imp ?_
    intro a b hab x hx y hy
    simp only [List.mem_map, List.mem_filter] at hx hy
    obtain ⟨_, _, rfl⟩ := hx
    obtain ⟨_, _, rfl⟩ := hy
    exact Or.inl hab

theorem peerCapable_sorted (env : Env) (n : Nat) :
    (peerCapable env n).Pairwise (fun a b => a < b) :=
  (List.pairwise_lt_range n).filter _

theorem peerCapable_nodup (env : Env) (n : Nat) : (peerCapable env n).Nodup :=
  (List.nodup_range n).filter _

theorem snprintf_short (size : Nat) (s : String) (h : s.length ≤ size - 1) :
    snprintf size s = s := by
  unfold snprintf
  have h2 : s.data.length ≤ size - 1 := h
  rw [List.take_of_length_le h2]

theorem fmtD_natCast (n : Nat) : fmtD (n : Int) = Nat.repr n := by
  unfold fmtD
  have : ¬ ((n : Int) < 0) := by omega
  simp [this]

theorem versionText_eq (v : Int) (M m : Nat) (hv : v = 1000 * (M : Int) + 10 * (m : Int))
    (hm : m ≤ 9) (hrange : v < 2 ^ 31) :
    versionText v = Nat.repr M ++ "." ++ Nat.repr m := by
  have hmaj : versionMajor v = (M : Int) := by
    unfold versionMajor
    rw [hv, Int.tdiv_eq_ediv (by omega) (by omega)]
    omega
  have hmin : versionMinor v = (m : Int) := by
    unfold versionMinor
    rw [hv, Int.tmod_eq_emod (by omega) (by omega), Int.tdiv_eq_ediv (by omega) (by omega)]
    omega
  unfold versionText
  rw [hmaj, hmin, fmtD_natCast, fmtD_natCast]
  apply snprintf_short
  have hM : M < 10 ^ 7 := by
    have : (M : Int) < 10 ^ 7 := by
      rw [hv] at hrange
      norm_num at hrange ⊢
      omega
    exact_mod_cast this
  have h1 := Nat.repr_length M 7 (by decide) hM
  have h2 := Nat.repr_length m 1 (by decide) (by omega)
  simp only [String.length_append]
  have h3 : ".".length = 1 := rfl
  omega

theorem countText_eq (n : Nat) (h : n ≤ 64) : snprintf 16 (fmtD (n : Int)) = Nat.repr n := by
  rw [fmtD_natCast]
  apply snprintf_short
  have := Nat.repr_length n 2 (by decide) (by omega)
  omega

theorem mem_allPairs (l : List Nat) (a b : Nat) : (a, b) ∈ allPairs l ↔ a ∈ l ∧ b ∈ l := by
  simp [allPairs]

theorem peerPhase_outcome (env : Env) (s : State) (hs : s.outcome = none)
    (h64 : env.deviceCount ≤ 64) :
    ((peerPhase env s).outcome = none ∧ ¬ peerFailure env) ∨
    ((peerPhase env s).outcome = some Outcome.exitFailure ∧ peerFailure env) := by
  by_cases h2 : 2 ≤ env.deviceCount
  · by_cases hbad : ∃ j, j < env.deviceCount ∧ (env.peerProps j).1 ≠ 0
    · right
      rw [peerPhase_readFailure env s hs h2 h64 hbad]
      exact ⟨rfl, h2, Or.inl hbad⟩
    · have hok : ∀ j, j < env.deviceCount → (env.peerProps j).1 = 0 := by
        intro j hj
        by_contra hne
        exact hbad ⟨j, hj, hne⟩
      rw [peerPhase_readsOk env s hs h2 h64 hok, pairsRun_eq]
      rcases pairsFold_outcome env (allPairs (peerCapable env env.deviceCount)) s hs with
        ⟨h1, hall⟩ | ⟨h1, ab, hab, hne, hq⟩
      · left
        refine ⟨h1, ?_⟩
        rintro ⟨_, hf | ⟨a, b, ha, hb, hne, hq⟩⟩
        · exact hbad hf
        · exact hq (hall (a, b) ((mem_allPairs _ a b).mpr ⟨ha, hb⟩) hne)
      · right
        obtain ⟨a, b⟩ := ab
        have hm := (mem_allPairs _ a b).mp hab
        exact ⟨h1, h2, Or.inr ⟨a, b, hm.1, hm.2, hne, hq⟩⟩
  · left
    rw [peerPhase_few env s (by omega)]
    exact ⟨hs, fun hf => h2 hf.1⟩

theorem peerPhase_overflow_any (env : Env) (s : State) (hs : s.outcome = none)
    (h : 64 < env.deviceCount) :
    (peerPhase env s).outcome = some Outcome.undefinedBehaviour ∨
    (peerPhase env s).outcome = some Outcome.exitFailure := by
  by_cases hok : ∀ j, j < 64 → (env.peerProps j).1 = 0
  · left
    rw [peerPhase_overflow env s hs h hok]
  · right
    have ht := filterTrack_fold env s hs 64 (by omega)
    rcases ht with ⟨hall, _⟩ | ⟨_, hst⟩
    · exact (hok hall).elim
    · have hsplit : List.range env.deviceCount =
          List.range 64 ++ List.range' 64 (env.deviceCount - 64) := by
        obtain ⟨k, hk⟩ : ∃ k, env.deviceCount = 64 + k := ⟨env.deviceCount - 64, by omega⟩
        rw [hk, show 64 + k - 64 = k by omega, List.range_eq_range', List.range_eq_range']
        have e1 : List.range' 0 (64 + k) = List.range' 0 64 ++ List.range' (0 + 64) k := by
          rw [List.range'_append_1, Nat.add_comm]
        rw [e1]
      have hfl : (filterLoop env s).st = { s with outcome := some Outcome.exitFailure } := by
        rw [filterLoop_eq, hsplit, List.foldl_append,
          filterFold_stopped env _ _ (by rw [hst]; rfl)]
        exact hst
      unfold peerPhase
      have h2 : 2 ≤ env.deviceCount := by omega
      simp only [hs, Option.isSome_none, Bool.false_eq_true, if_false, h2, if_true]
      rw [pairLoops_stopped env _ (by rw [hfl]; rfl)]
      simp [hfl]

theorem main_of_countFailure (env : Env) (csv0 : List String) (h : env.countStatus ≠ 0) :
    main env csv0 =
      { stdout := [Out.text (env.argv0 ++ " Starting...\n\n"),
                   Out.text " CUDA Device Query (Runtime API) version (CUDART static linking)\n\n",
                   Out.text ("cudaGetDeviceCount returned " ++ fmtD env.countStatus ++ "\n-> "
                      ++ env.errorString env.countStatus ++ "\n"),
                   Out.text "Result = FAIL\n"],
        csv := csv0, csvOpen := false, driverVersion := 0, runtimeVersion := 0,
        rendered := [], queries := [], outcome := some Outcome.exitFailure } := by
  have he : (enumerate env (initialState csv0)).outcome.isSome = true := by
    simp [enumerate, h]
  rw [main, deviceLoop_stopped env _ he, peerPhase_stopped env _ he, summary_stopped env _ he]
  simp [enumerate, h, initialState, State.print]

theorem main_outcome (env : Env) (csv0 : List String) :
    (main env csv0).outcome =
      some ((peerPhase env (afterLoop env csv0)).outcome.getD Outcome.exitSuccess) := by
  rw [main_eq, summary_outcome]

theorem main_badMode (env : Env) (csv0 : List String) (h : env.countStatus = 0)
    (hbad : ¬ loopModesOk env) :
    (main env csv0).outcome = some Outcome.undefinedBehaviour := by
  rcases afterLoop_outcome env csv0 h with ⟨_, hok⟩ | ⟨ho, _⟩
  · exact (hbad hok).elim
  · rw [main_outcome env csv0, peerPhase_stopped env _ (by rw [ho]; rfl), ho]
    rfl

theorem main_outcome_cases (env : Env) (csv0 : List String)
    (h64 : env.countStatus = 0 → env.deviceCount ≤ 64)
    (hok : env.countStatus = 0 → loopModesOk env) :
    ((main env csv0).outcome = some Outcome.exitSuccess ∧
      ¬ (env.countStatus ≠ 0 ∨ peerFailure env)) ∨
    ((main env csv0).outcome = some Outcome.exitFailure ∧
      (env.countStatus ≠ 0 ∨ peerFailure env)) := by
  by_cases h : env.countStatus = 0
  · have hrun := (afterLoop_frame env csv0 h (hok h)).2.2.2
    rw [main_outcome env csv0]
    rcases peerPhase_outcome env (afterLoop env csv0) hrun (h64 h) with ⟨ho, hf⟩ | ⟨ho, hf⟩
    · left
      rw [ho]
      exact ⟨rfl, fun hc => hc.elim (fun hne => hne h) hf⟩
    · right
      rw [ho]
      exact ⟨rfl, Or.inr hf⟩
  · right
    rw [main_of_countFailure env csv0 h]
    exact ⟨rfl, Or.inl h⟩

theorem main_overflow (env : Env) (csv0 : List String) (h : env.countStatus = 0)
    (hN : 64 < env.deviceCount) :
    (main env csv0).outcome = some Outcome.undefinedBehaviour ∨
    (main env csv0).outcome = some Outcome.exitFailure := by
  rcases afterLoop_outcome env csv0 h with ⟨hrun, _⟩ | ⟨_, hbad⟩
  · rw [main_outcome env csv0]
    rcases peerPhase_overflow_any env (afterLoop env csv0) hrun hN with ho | ho
    · left; rw [ho]; rfl
    · right; rw [ho]; rfl
  · left; exact main_badMode env csv0 h hbad

theorem main_overflow_healthy (env : Env) (csv0 : List String) (h : env.countStatus = 0)
    (hN : 64 < env.deviceCount) (hok : ∀ j, j < 64 → (env.peerProps j).1 = 0)
    (hmodes : loopModesOk env) :
    (main env csv0).outcome = some Outcome.undefinedBehaviour ∧
    (main env csv0).queries = [] := by
  have hf := afterLoop_frame env csv0 h hmodes
  have hp := peerPhase_overflow env (afterLoop env csv0) hf.2.2.2 hN hok
  constructor
  · rw [main_outcome env csv0, hp]; rfl
  · rw [main_eq, (summary_sameFile env _).2.2, hp]
    exact hf.2.2.1

theorem main_success (env : Env) (csv0 : List String)
    (hout : (main env csv0).outcome = some Outcome.exitSuccess) :
    env.countStatus = 0 ∧ env.deviceCount ≤ 64 ∧
    (peerPhase env (afterLoop env csv0)).outcome = none ∧ loopModesOk env := by
  have h : env.countStatus = 0 := by
    by_contra hne
    rw [main_of_countFailure env csv0 hne] at hout
    simp at hout
  have h64 : env.deviceCount ≤ 64 := by
    by_contra hgt
    rcases main_overflow env csv0 h (by omega) with ho | ho <;> rw [ho] at hout <;> simp at hout
  have hok : loopModesOk env := by
    by_contra hbad
    rw [main_badMode env csv0 h hbad] at hout
    simp at hout
  refine ⟨h, h64, ?_, hok⟩
  have hrun := (afterLoop_frame env csv0 h hok).2.2.2
  rcases peerPhase_outcome env (afterLoop env csv0) hrun h64 with ⟨ho, _⟩ | ⟨ho, _⟩
  · exact ho
  · rw [main_outcome env csv0, ho] at hout
    simp at hout

theorem peerPhase_allOk (env : Env) (s : State) (hs : s.outcome = none)
    (h2 : 2 ≤ env.deviceCount) (h64 : env.deviceCount ≤ 64)
    (hok : ∀ j, j < env.deviceCount → (env.peerProps j).1 = 0)
    (hq : ∀ a b, a ∈ peerCapable env env.deviceCount → b ∈ peerCapable env env.deviceCount →
      a ≠ b → (env.canAccessPeer a b).1 = 0) :
    peerPhase env s =
      { s with
        queries := s.queries ++ orderedPairs (peerCapable env env.deviceCount),
        stdout := s.stdout ++ (orderedPairs (peerCapable env env.deviceCount)).map (peerOut env) } := by
  rw [peerPhase_readsOk env s hs h2 h64 hok, pairsRun_eq, pairsFold_ok env _ s hs, allPairs_filter]
  intro ab hab hne
  obtain ⟨a, b⟩ := ab
  have hm := (mem_allPairs _ a b).mp hab
  exact hq a b hm.1 hm.2 hne

theorem filterInv_distinct (t : Nat) (ps : Peer) (h : FilterInv t ps) (i j : Nat)
    (hi : i < ps.gpu_p2p_count) (hj : j < ps.gpu_p2p_count) :
    readSlot ps.gpuid i = readSlot ps.gpuid j ↔ i = j := by
  obtain ⟨_, _, _, h4, h5, _⟩ := h
  constructor
  · intro he
    obtain ⟨gi, hgi, _⟩ := h4 i hi
    obtain ⟨gj, hgj, _⟩ := h4 j hj
    have hgg : gi = gj := by
      rw [hgi, hgj] at he
      exact Option.some.inj he
    by_contra hne
    rcases Nat.lt_or_gt_of_ne hne with hlt | hgt
    · have := h5 i j gi gj hlt hj hgi hgj
      omega
    · have := h5 j i gj gi hgt hi hgj hgi
      omega
  · intro he; rw [he]

theorem main_summary_stdout (env : Env) (csv0 : List String)
    (hout : (main env csv0).outcome = some Outcome.exitSuccess) :
    (main env csv0).stdout = (peerPhase env (afterLoop env csv0)).stdout ++
      [Out.text "\n",
       Out.text (sProfileString (afterLoop env csv0).driverVersion
          (afterLoop env csv0).runtimeVersion env.deviceCount),
       Out.text "Result = PASS\n"] := by
  obtain ⟨_, _, hnone, _⟩ := main_success env csv0 hout
  have hsf := peerPhase_sameFile env (afterLoop env csv0)
  rw [main_eq, summary_running env _ hnone, hsf.2.2.1, hsf.2.2.2.1]

theorem sampleEnv_modesOk (n : Nat) : loopModesOk (sampleEnv n) := by
  intro dev _
  show 0 ≤ sampleProp.computeMode ∧ sampleProp.computeMode ≤ 4
  decide

theorem sampleEnv_reaches (n : Nat) (h : n < 2) :
    (peerPhase (sampleEnv n) (afterLoop (sampleEnv n) [])).outcome = none := by
  rw [peerPhase_few (sampleEnv n) _ (by show n < 2; exact h)]
  exact (afterLoop_frame (sampleEnv n) [] rfl (sampleEnv_modesOk n)).2.2.2

theorem banner_ne_pass (argv0 : String) : argv0 ++ " Starting...\n\n" ≠ "Result = PASS\n" := by
  intro h
  have hlen := congrArg String.length h
  rw [String.length_append] at hlen
  have h1 : " Starting...\n\n".length = 14 := by decide
  have h2 : "Result = PASS\n".length = 14 := by decide
  rw [h1, h2] at hlen
  have h0 : argv0.length = 0 := by omega
  have he : argv0 = "" := by
    cases argv0 with
    | mk data =>
      have : data.length = 0 := h0
      rw [List.length_eq_zero] at this
      rw [this]
  rw [he] at h
  exact absurd h (by decide)

theorem countMessage_ne_pass (rest : String) :
    "cudaGetDeviceCount returned " ++ rest ≠ "Result = PASS\n" := by
  intro h
  have hlen := congrArg String.length h
  rw [String.length_append] at hlen
  have h1 : "cudaGetDeviceCount returned ".length = 28 := by decide
  have h2 : "Result = PASS\n".length = 14 := by decide
  omega

theorem countFailure_no_pass (env : Env) (csv0 : List String) (h : env.countStatus ≠ 0) :
    Out.text "Result = PASS\n" ∉ (main env csv0).stdout := by
  rw [main_of_countFailure env csv0 h]
  simp only [List.mem_cons, Out.text.injEq, List.mem_nil_iff, or_false, not_or]
  refine ⟨fun e => banner_ne_pass _ e.symm, by decide, ?_, by decide⟩
  intro e
  apply countMessage_ne_pass (fmtD env.countStatus ++ "\n-> " ++ env.errorString env.countStatus ++ "\n")
  rw [e]
  simp [String.append_assoc]

theorem fmtD_eq_toString (i : Int) : fmtD i = toString i := by
  cases i with
  | ofNat n =>
    have h : ¬ (Int.ofNat n < 0) := Int.not_lt.mpr (Int.ofNat_nonneg n)
    unfold fmtD
    rw [if_neg h]
    rfl
  | negSucc n =>
    have h : Int.negSucc n < 0 := Int.negSucc_lt_zero n
    unfold fmtD
    rw [if_pos h]
    rfl

theorem badModeEnv_modes : ¬ loopModesOk badModeEnv := by
  intro h
  have h0 := h 0 (by decide)
  have h6 : (badModeEnv.loopProps 0).2.computeMode = 6 := rfl
  rw [h6] at h0
  unfold computeModeOk at h0
  omega

theorem badModeEnv_loop :
    (afterLoop badModeEnv []).rendered = [0] ∧
    (afterLoop badModeEnv []).outcome = some Outcome.undefinedBehaviour := by
  have hb : ¬ computeModeOk (badModeEnv.loopProps 0).2.computeMode := by
    have h6 : (badModeEnv.loopProps 0).2.computeMode = 6 := rfl
    rw [h6]
    unfold computeModeOk
    omega
  have h0 := renderStep_bad badModeEnv 0 (enumerate badModeEnv (initialState []))
    (enumerate_running badModeEnv [] rfl) hb
  have e : afterLoop badModeEnv [] =
      renderStep badModeEnv 1 (renderStep badModeEnv 0 (enumerate badModeEnv (initialState []))) := by
    rw [afterLoop_eq]
    rfl
  rw [e, renderStep_stopped badModeEnv 1 _ (by rw [h0]; rfl), h0]
  exact ⟨rfl, rfl⟩

/-! ## The claims -/

/-- C1 (as amended): for a compute mode value in `[0,4]` the read `sComputeMode[mode]` finds
a label, the render block ends with the line showing that label, and the label of the
value 4 is `Unknown`.  (The index is the mode value itself, without any range check.) -/
theorem C1_computeMode_lookup (env : Env) (dv rv : Int) (dev : Nat) (p : cudaDeviceProp)
    (h0 : 0 ≤ p.computeMode) (h4 : p.computeMode ≤ 4) :
    ∃ label, sComputeModeRead p.computeMode = some (some label) ∧
      (p.computeMode = 4 → label = "Unknown") ∧
      (consoleOut (deviceBlock env dv rv dev p)).getLast? =
        some (Out.text ("     < " ++ label ++ " >\n")) := by
  obtain ⟨label, hl, hu⟩ := sComputeModeRead_inRange p.computeMode h0 h4
  exact ⟨label, hl, hu, computeMode_line env dv rv dev p label hl⟩

/-- C1 (witness): the lookup for the compute mode value 4. -/
theorem C1_computeMode_lookup_witness :
    (0 ≤ ({ sampleProp with computeMode := 4 } : cudaDeviceProp).computeMode ∧
      ({ sampleProp with computeMode := 4 } : cudaDeviceProp).computeMode ≤ 4) ∧
    ∃ label, sComputeModeRead ({ sampleProp with computeMode := 4 } : cudaDeviceProp).computeMode
        = some (some label) ∧
      (({ sampleProp with computeMode := 4 } : cudaDeviceProp).computeMode = 4 →
        label = "Unknown") ∧
      (consoleOut (deviceBlock (sampleEnv 1) 11020 11020 0
        { sampleProp with computeMode := 4 })).getLast? =
          some (Out.text ("     < " ++ label ++ " >\n")) :=
  ⟨⟨by decide, by decide⟩,
    C1_computeMode_lookup (sampleEnv 1) 11020 11020 0 { sampleProp with computeMode := 4 }
      (by decide) (by decide)⟩

/-- C1 (counterexample): the compute mode values 5, 6 and -1 lie outside `[0,4]`.  With 5 the
read finds the `NULL` terminator, with 6 and -1 it falls outside the six entries of the
table, and in no case is the line printed the `Unknown` line. -/
theorem C1_counterexample :
    sComputeModeRead 5 = some none ∧
    (consoleOut (deviceBlock (sampleEnv 1) 11020 11020 0
        { sampleProp with computeMode := 5 })).getLast? ≠ some (Out.text "     < Unknown >\n") ∧
    sComputeModeRead 6 = none ∧
    (consoleOut (deviceBlock (sampleEnv 1) 11020 11020 0
        { sampleProp with computeMode := 6 })).getLast? ≠ some (Out.text "     < Unknown >\n") ∧
    sComputeModeRead (-1) = none ∧
    (consoleOut (deviceBlock (sampleEnv 1) 11020 11020 0
        { sampleProp with computeMode := -1 })).getLast? ≠ some (Out.text "     < Unknown >\n") := by
  refine ⟨by decide, ?_, by decide, ?_, by decide, ?_⟩
  · rw [computeMode_unspecified _ _ _ _ _ (by decide)]; simp
  · rw [computeMode_unspecified _ _ _ _ _ (by decide)]; simp
  · rw [computeMode_unspecified _ _ _ _ _ (by decide)]; simp

/-- C3 (as amended): with fewer than two devices the peer access phase makes no query and
prints nothing.  With between 2 and 64 devices, when the property reads of the phase and the
capability queries return `cudaSuccess`, the phase queries and prints one line for each
ordered pair of distinct peer capable devices (major version at least 2), in lexicographic
order and without repetition, `|P| * (|P| - 1)` lines in all. -/
theorem C3_peer_pairs (env : Env) (s : State) (hs : s.outcome = none) :
    (env.deviceCount < 2 → peerPhase env s = s) ∧
    (2 ≤ env.deviceCount → env.deviceCount ≤ 64 →
      (∀ j, j < env.deviceCount → (env.peerProps j).1 = 0) →
      (∀ a b, a ∈ peerCapable env env.deviceCount → b ∈ peerCapable env env.deviceCount →
        a ≠ b → (env.canAccessPeer a b).1 = 0) →
      peerPhase env s =
        { s with
          queries := s.queries ++ orderedPairs (peerCapable env env.deviceCount),
          stdout := s.stdout ++
            (orderedPairs (peerCapable env env.deviceCount)).map (peerOut env) }) ∧
    (∀ g, g ∈ peerCapable env env.deviceCount ↔
      g < env.deviceCount ∧ 2 ≤ (env.peerProps g).2.major) ∧
    (∀ a b, (a, b) ∈ orderedPairs (peerCapable env env.deviceCount) ↔
      a ∈ peerCapable env env.deviceCount ∧ b ∈ peerCapable env env.deviceCount ∧ a ≠ b) ∧
    (orderedPairs (peerCapable env env.deviceCount)).Nodup ∧
    (orderedPairs (peerCapable env env.deviceCount)).Pairwise
      (fun x y => x.1 < y.1 ∨ (x.1 = y.1 ∧ x.2 < y.2)) ∧
    (orderedPairs (peerCapable env env.deviceCount)).length =
      (peerCapable env env.deviceCount).length * ((peerCapable env env.deviceCount).length - 1) :=
  ⟨peerPhase_few env s, peerPhase_allOk env s hs, mem_peerCapable env _,
    mem_orderedPairs _, orderedPairs_nodup _ (peerCapable_nodup env _),
    orderedPairs_sorted _ (peerCapable_sorted env _),
    orderedPairs_length _ (peerCapable_nodup env _)⟩

/-- C3 (witness): three healthy peer capable devices give the six ordered pairs. -/
theorem C3_peer_pairs_witness :
    (initialState []).outcome = none ∧
    peerPhase (sampleEnv 3) (initialState []) =
      { initialState [] with
        queries := (initialState []).queries ++
          orderedPairs (peerCapable (sampleEnv 3) (sampleEnv 3).deviceCount),
        stdout := (initialState []).stdout ++
          (orderedPairs (peerCapable (sampleEnv 3) (sampleEnv 3).deviceCount)).map
            (peerOut (sampleEnv 3)) } ∧
    orderedPairs (peerCapable (sampleEnv 3) (sampleEnv 3).deviceCount)
      = [(0, 1), (0, 2), (1, 0), (1, 2), (2, 0), (2, 1)] :=
  ⟨rfl, (C3_peer_pairs (sampleEnv 3) (initialState []) rfl).2.1 (by decide) (by decide)
    (fun _ _ => rfl) (fun _ _ _ _ _ => rfl), by decide⟩

/-- C3 (counterexample): with 65 peer capable devices and every call successful the phase
runs out of its 64 slots and neither queries nor prints anything; with two peer capable
devices and a failing capability query the phase prints no line. -/
theorem C3_counterexample :
    ((peerCapable (sampleEnv 65) (sampleEnv 65).deviceCount).length = 65 ∧
      peerPhase (sampleEnv 65) (initialState []) =
        { initialState [] with outcome := some Outcome.undefinedBehaviour }) ∧
    (peerCapable queryFailureEnv queryFailureEnv.deviceCount = [0, 1] ∧
      (peerPhase queryFailureEnv (initialState [])).stdout = [] ∧
      (peerPhase queryFailureEnv (initialState [])).outcome = some Outcome.exitFailure) := by
  refine ⟨⟨by decide, ?_⟩, ⟨by decide, ?_, ?_⟩⟩
  · exact peerPhase_overflow (sampleEnv 65) (initialState []) rfl (by decide) (fun _ _ => rfl)
  · rw [peerPhase_readsOk queryFailureEnv (initialState []) rfl (by decide) (by decide)
      (fun _ _ => rfl)]
    decide
  · rw [peerPhase_readsOk queryFailureEnv (initialState []) rfl (by decide) (by decide)
      (fun _ _ => rfl)]
    decide

/-- C5: when `cudaGetDeviceCount` returns a status other than `cudaSuccess`, the run prints
the two banner lines, the line `cudaGetDeviceCount returned` followed by the decimal text of
the status, the line with its message and `Result = FAIL`, and nothing else (in particular
neither the summary nor `Result = PASS`); no render block runs, the file keeps its content,
no peer query is made, and the run ends with the failure exit status. -/
theorem C5_count_failure (env : Env) (csv0 : List String) (h : env.countStatus ≠ 0) :
    main env csv0 =
      { stdout := [Out.text (env.argv0 ++ " Starting...\n\n"),
                   Out.text " CUDA Device Query (Runtime API) version (CUDART static linking)\n\n",
                   Out.text ("cudaGetDeviceCount returned " ++ toString env.countStatus ++ "\n-> "
                      ++ env.errorString env.countStatus ++ "\n"),
                   Out.text "Result = FAIL\n"],
        csv := csv0, csvOpen := false, driverVersion := 0, runtimeVersion := 0,
        rendered := [], queries := [], outcome := some Outcome.exitFailure } ∧
    Out.text "Result = PASS\n" ∉ (main env csv0).stdout := by
  refine ⟨?_, countFailure_no_pass env csv0 h⟩
  rw [main_of_countFailure env csv0 h, fmtD_eq_toString]

/-- C5 (witness): the run of a system whose count query returns status 35 with the message
`error`, over a file that held an old row. -/
theorem C5_count_failure_witness :
    ({ sampleEnv 2 with countStatus := 35 } : Env).countStatus ≠ 0 ∧
    main { sampleEnv 2 with countStatus := 35 } ["old row\n"] =
      { stdout := [Out.text "./deviceQuery Starting...\n\n",
                   Out.text " CUDA Device Query (Runtime API) version (CUDART static linking)\n\n",
                   Out.text "cudaGetDeviceCount returned 35\n-> error\n",
                   Out.text "Result = FAIL\n"],
        csv := ["old row\n"], csvOpen := false, driverVersion := 0, runtimeVersion := 0,
        rendered := [], queries := [], outcome := some Outcome.exitFailure } :=
  ⟨by decide,
    (C5_count_failure { sampleEnv 2 with countStatus := 35 } ["old row\n"] (by decide)).1.trans
      rfl⟩

/-- C6 (as amended): a run with at most 64 devices in which every snapshot read by the
render loop carries a compute mode in `[0,4]` ends in exactly one of the two states
`exitSuccess` and `exitFailure`; it ends in `exitFailure` exactly when the device count
query, a property read of the filtering loop of the peer access phase, or a capability
query made by that phase returns an error; replacing the answers to the unchecked property
reads of the render loop by any others, of any status, whose compute modes lie in `[0,4]`
does not change how the run ends. -/
theorem C6_terminal_states (env : Env) (csv0 : List String)
    (h64 : env.countStatus = 0 → env.deviceCount ≤ 64)
    (hmodes : env.countStatus = 0 → loopModesOk env) :
    ((main env csv0).outcome = some Outcome.exitSuccess ∨
      (main env csv0).outcome = some Outcome.exitFailure) ∧
    ((main env csv0).outcome = some Outcome.exitFailure ↔
      (env.countStatus ≠ 0 ∨ peerFailure env)) ∧
    ((main env csv0).outcome = some Outcome.exitSuccess ↔
      ¬ (env.countStatus ≠ 0 ∨ peerFailure env)) ∧
    (∀ answers : Nat → Int × cudaDeviceProp,
      (∀ dev, dev < env.deviceCount → computeModeOk (answers dev).2.computeMode) →
      (main { env with loopProps := answers } csv0).outcome = (main env csv0).outcome) := by
  have hc := main_outcome_cases env csv0 h64 hmodes
  refine ⟨?_, ?_, ?_, ?_⟩
  · rcases hc with ⟨h1, _⟩ | ⟨h1, _⟩
    · exact Or.inl h1
    · exact Or.inr h1
  · rcases hc with ⟨h1, h2⟩ | ⟨h1, h2⟩
    · rw [h1]; constructor
      · intro h; simp at h
      · intro h; exact absurd h h2
    · rw [h1]; exact ⟨fun _ => h2, fun _ => rfl⟩
  · rcases hc with ⟨h1, h2⟩ | ⟨h1, h2⟩
    · rw [h1]; exact ⟨fun _ => h2, fun _ => rfl⟩
    · rw [h1]; constructor
      · intro h; simp at h
      · intro h; exact absurd h2 h
  · intro answers hans
    have hc2 := main_outcome_cases { env with loopProps := answers } csv0 h64 (fun _ => hans)
    have e : peerFailure { env with loopProps := answers } = peerFailure env := rfl
    rw [e] at hc2
    rcases hc with ⟨h1, h2⟩ | ⟨h1, h2⟩ <;> rcases hc2 with ⟨h3, h4⟩ | ⟨h3, h4⟩
    · rw [h1, h3]
    · exact absurd h4 h2
    · exact absurd h2 h4
    · rw [h1, h3]

/-- C6 (witness): a healthy system of two devices ends in `exitSuccess`, also when the
property reads of the render loop report the error status 1. -/
theorem C6_terminal_states_witness :
    (((sampleEnv 2).countStatus = 0 → (sampleEnv 2).deviceCount ≤ 64) ∧
      ((sampleEnv 2).countStatus = 0 → loopModesOk (sampleEnv 2))) ∧
    (main (sampleEnv 2) []).outcome = some Outcome.exitSuccess ∧
    (main { sampleEnv 2 with loopProps := fun _ => (1, sampleProp) } []).outcome
      = some Outcome.exitSuccess :=
  ⟨⟨fun _ => by decide, fun _ => sampleEnv_modesOk 2⟩,
    (C6_terminal_states (sampleEnv 2) [] (fun _ => by decide)
      (fun _ => sampleEnv_modesOk 2)).2.2.1.mpr (by
        intro hc
        rcases hc with hc | ⟨_, hc | hc⟩
        · exact hc rfl
        · obtain ⟨j, _, hj⟩ := hc
          exact hj rfl
        · obtain ⟨a, b, _, _, _, hq⟩ := hc
          exact hq rfl),
    ((C6_terminal_states (sampleEnv 2) [] (fun _ => by decide)
      (fun _ => sampleEnv_modesOk 2)).2.2.2 (fun _ => (1, sampleProp))
        (fun _ _ => sampleEnv_modesOk 2 0 (by decide))).trans
      ((C6_terminal_states (sampleEnv 2) [] (fun _ => by decide)
        (fun _ => sampleEnv_modesOk 2)).2.2.1.mpr (by
          intro hc
          rcases hc with hc | ⟨_, hc | hc⟩
          · exact hc rfl
          · obtain ⟨j, _, hj⟩ := hc
            exact hj rfl
          · obtain ⟨a, b, _, _, _, hq⟩ := hc
            exact hq rfl))⟩

/-- C6 (counterexample): with two devices, a successful count query and successful capability
queries, an error of the property read of the peer access phase ends the run in
`exitFailure`; a healthy system of 65 devices ends in neither of the two states; and a
healthy system of two devices whose first snapshot carries the compute mode 6 ends in
neither of the two states. -/
theorem C6_counterexample :
    (readFailureEnv.countStatus = 0 ∧
      (∀ a b, (readFailureEnv.canAccessPeer a b).1 = 0) ∧
      (main readFailureEnv []).outcome = some Outcome.exitFailure) ∧
    ((sampleEnv 65).countStatus = 0 ∧
      (∀ j, ((sampleEnv 65).peerProps j).1 = 0) ∧
      (∀ a b, ((sampleEnv 65).canAccessPeer a b).1 = 0) ∧
      (main (sampleEnv 65) []).outcome = some Outcome.undefinedBehaviour) ∧
    (badModeEnv.countStatus = 0 ∧ badModeEnv.deviceCount = 2 ∧
      (∀ j, (badModeEnv.peerProps j).1 = 0) ∧
      (∀ a b, (badModeEnv.canAccessPeer a b).1 = 0) ∧
      (main badModeEnv []).outcome = some Outcome.undefinedBehaviour) := by
  refine ⟨⟨rfl, fun _ _ => rfl, ?_⟩, ⟨rfl, fun _ => rfl, fun _ _ => rfl, ?_⟩,
    ⟨rfl, rfl, fun _ => rfl, fun _ _ => rfl, ?_⟩⟩
  · rcases main_outcome_cases readFailureEnv [] (fun _ => by decide)
        (fun _ => sampleEnv_modesOk 2) with ⟨_, h2⟩ | ⟨h1, _⟩
    · exact absurd (Or.inr ⟨by decide, Or.inl ⟨0, by decide, by decide⟩⟩) h2
    · exact h1
  · exact (main_overflow_healthy (sampleEnv 65) [] rfl (by decide) (fun _ _ => rfl)
      (sampleEnv_modesOk 65)).1
  · exact main_badMode badModeEnv [] rfl badModeEnv_modes

/-- C7 (as amended): in every run that reaches the summary (no exit has happened when the
peer access phase is over) the exit status is success and the last three items printed are
an empty line, the summary line and the line `Result = PASS`.  With at least one device, the
driver and runtime version codes being `1000*M + 10*m` and `1000*M' + 10*m'` within the range
of `int`, the summary line is `deviceQuery, CUDA Driver = CUDART, CUDA Driver Version = M.m,
CUDA Runtime Version = M'.m', NumDevs = N`; with no device the versions are never queried
and the line shows `0.0` for both. -/
theorem C7_summary_line (env : Env) (csv0 : List String) (M m M' m' : Nat)
    (hreach : (peerPhase env (afterLoop env csv0)).outcome = none)
    (hd : env.driverVersion = 1000 * (M : Int) + 10 * (m : Int)) (hm : m ≤ 9)
    (hr : env.runtimeVersion = 1000 * (M' : Int) + 10 * (m' : Int)) (hm' : m' ≤ 9)
    (hdr : env.driverVersion < 2 ^ 31) (hrr : env.runtimeVersion < 2 ^ 31) :
    (main env csv0).outcome = some Outcome.exitSuccess ∧
    (1 ≤ env.deviceCount → ∃ pre, (main env csv0).stdout = pre ++
      [Out.text "\n",
       Out.text ("deviceQuery, CUDA Driver = CUDART" ++ ", CUDA Driver Version = "
          ++ (Nat.repr M ++ "." ++ Nat.repr m) ++ ", CUDA Runtime Version = "
          ++ (Nat.repr M' ++ "." ++ Nat.repr m') ++ ", NumDevs = "
          ++ Nat.repr env.deviceCount ++ "\n"),
       Out.text "Result = PASS\n"]) ∧
    (env.deviceCount = 0 → ∃ pre, (main env csv0).stdout = pre ++
      [Out.text "\n",
       Out.text ("deviceQuery, CUDA Driver = CUDART, CUDA Driver Version = 0.0, "
          ++ "CUDA Runtime Version = 0.0, NumDevs = 0\n"),
       Out.text "Result = PASS\n"]) := by
  have hout : (main env csv0).outcome = some Outcome.exitSuccess := by
    rw [main_outcome, hreach]; rfl
  obtain ⟨h0, h64, _, hok⟩ := main_success env csv0 hout
  have hs := main_summary_stdout env csv0 hout
  refine ⟨hout, ?_, ?_⟩
  · intro hN
    have hl := afterLoop_last env csv0 h0 hN (fun dev hd => hok dev (by omega))
    refine ⟨(peerPhase env (afterLoop env csv0)).stdout, ?_⟩
    rw [hs, hl.2.1, hl.2.2]
    unfold sProfileString
    rw [versionText_eq _ M m hd hm hdr, versionText_eq _ M' m' hr hm' hrr,
      countText_eq _ h64]
  · intro hN
    have hl := afterLoop_none env csv0 h0 hN
    refine ⟨(peerPhase env (afterLoop env csv0)).stdout, ?_⟩
    rw [hs, hl.2.1, hl.2.2, hN]
    rfl

/-- C7 (witness): one device under driver and runtime version 11.2. -/
theorem C7_summary_line_witness :
    ((peerPhase (sampleEnv 1) (afterLoop (sampleEnv 1) [])).outcome = none ∧
      (sampleEnv 1).driverVersion = 1000 * ((11 : Nat) : Int) + 10 * ((2 : Nat) : Int) ∧
      (sampleEnv 1).runtimeVersion = 1000 * ((11 : Nat) : Int) + 10 * ((2 : Nat) : Int) ∧
      (sampleEnv 1).driverVersion < 2 ^ 31 ∧ 1 ≤ (sampleEnv 1).deviceCount) ∧
    (main (sampleEnv 1) []).outcome = some Outcome.exitSuccess ∧
    (∃ pre, (main (sampleEnv 1) []).stdout = pre ++
      [Out.text "\n",
       Out.text ("deviceQuery, CUDA Driver = CUDART" ++ ", CUDA Driver Version = "
          ++ (Nat.repr 11 ++ "." ++ Nat.repr 2) ++ ", CUDA Runtime Version = "
          ++ (Nat.repr 11 ++ "." ++ Nat.repr 2) ++ ", NumDevs = "
          ++ Nat.repr (sampleEnv 1).deviceCount ++ "\n"),
       Out.text "Result = PASS\n"]) :=
  ⟨⟨sampleEnv_reaches 1 (by decide), by decide, by decide, by decide, by decide⟩,
    (C7_summary_line (sampleEnv 1) [] 11 2 11 2 (sampleEnv_reaches 1 (by decide)) (by decide)
      (by decide) (by decide) (by decide) (by decide) (by decide)).1,
    (C7_summary_line (sampleEnv 1) [] 11 2 11 2 (sampleEnv_reaches 1 (by decide)) (by decide)
      (by decide) (by decide) (by decide) (by decide) (by decide)).2.1 (by decide)⟩

/-- C7 (counterexample): with no device and a runtime that reports version code 11020 for the
driver and the runtime, the run reaches the summary and the line shows version `0.0`, not
`11.2`. -/
theorem C7_counterexample :
    (sampleEnv 0).driverVersion = 1000 * 11 + 10 * 2 ∧
    (sampleEnv 0).runtimeVersion = 1000 * 11 + 10 * 2 ∧
    (main (sampleEnv 0) []).outcome = some Outcome.exitSuccess ∧
    (main (sampleEnv 0) []).stdout =
      [Out.text "./deviceQuery Starting...\n\n",
       Out.text " CUDA Device Query (Runtime API) version (CUDART static linking)\n\n",
       Out.text "There are no available device(s) that support CUDA\n",
       Out.text "\n",
       Out.text ("deviceQuery, CUDA Driver = CUDART, CUDA Driver Version = 0.0, "
          ++ "CUDA Runtime Version = 0.0, NumDevs = 0\n"),
       Out.text "Result = PASS\n"] := by
  decide

/-- C8 (as amended): the megabyte value is the `float` nearest to the byte count divided by
1,048,576 and the MHz values are the `float` products of the clock rates with `1e-3f`; the
console shows them rounded to an integer and the file shows them with six significant
digits.  When the byte count is `k` times 1,048,576 with `k` below 1,000,000 both texts are
the decimal text of `k`; 1,500,000 kHz, whose `float` product is not exactly 1500, is shown
as 1500 in both. -/
theorem C8_unit_conversions (env : Env) (dv rv : Int) (dev : Nat) (p : cudaDeviceProp) :
    ((Field.totalGlobalMemMBytes, fmtF0 ((F32.ofNat p.totalGlobalMem).divPow2 20))
        ∈ consoleArgs (deviceBlock env dv rv dev p) ∧
     (Field.totalGlobalMemMBytes, fmtG6 ((F32.ofNat p.totalGlobalMem).divPow2 20))
        ∈ csvArgs (deviceBlock env dv rv dev p) ∧
     (Field.clockRateMHz, fmtF0 (F32.ofInt p.clockRate).mul1em3)
        ∈ consoleArgs (deviceBlock env dv rv dev p) ∧
     (Field.clockRateMHz, fmtG6 (F32.ofInt p.clockRate).mul1em3)
        ∈ csvArgs (deviceBlock env dv rv dev p) ∧
     (Field.memoryClockRateMHz, fmtF0 (F32.ofInt p.memoryClockRate).mul1em3)
        ∈ consoleArgs (deviceBlock env dv rv dev p) ∧
     (Field.memoryClockRateMHz, fmtG6 (F32.ofInt p.memoryClockRate).mul1em3)
        ∈ csvArgs (deviceBlock env dv rv dev p)) ∧
    (∀ k : Nat, p.totalGlobalMem = k * 1048576 → k < 1000000 →
      (Field.totalGlobalMemMBytes, Nat.repr k) ∈ consoleArgs (deviceBlock env dv rv dev p) ∧
      (Field.totalGlobalMemMBytes, Nat.repr k) ∈ csvArgs (deviceBlock env dv rv dev p)) ∧
    ((F32.ofInt 1500000).mul1em3 = ⟨false, 12884902936576, 33⟩ ∧
      12884902936576 ≠ 1500 * 2 ^ 33 ∧
      fmtF0 (F32.ofInt 1500000).mul1em3 = "1500" ∧
      fmtG6 (F32.ofInt 1500000).mul1em3 = "1500") := by
  refine ⟨float_args env dv rv dev p, ?_, by decide⟩
  intro k hb hk
  have h := float_args env dv rv dev p
  rw [hb, memMBytes_whole k hk, fmtF0_whole k, fmtG6_whole k hk] at h
  exact ⟨h.1, h.2.1⟩

/-- C8 (witness): the sample device with 8,589,934,592 bytes shows 8192 in both outputs, in
the console line `8192 MBytes` and in the row `Total amount of global memory(MBytes),8192`;
4,294,967,296 bytes shows 4096. -/
theorem C8_unit_conversions_witness :
    (sampleProp.totalGlobalMem = 8192 * 1048576 ∧ 8192 < 1000000) ∧
    ((Field.totalGlobalMemMBytes, Nat.repr 8192)
        ∈ consoleArgs (deviceBlock (sampleEnv 1) 11020 11020 0 sampleProp) ∧
     (Field.totalGlobalMemMBytes, Nat.repr 8192)
        ∈ csvArgs (deviceBlock (sampleEnv 1) 11020 11020 0 sampleProp)) ∧
    Out.text "  Total amount of global memory:                 8192 MBytes (8589934592 bytes)\n"
        ∈ consoleOut (deviceBlock (sampleEnv 1) 11020 11020 0 sampleProp) ∧
    "Total amount of global memory(MBytes),8192\n"
        ∈ csvRows (deviceBlock (sampleEnv 1) 11020 11020 0 sampleProp) ∧
    fmtF0 ((F32.ofNat 4294967296).divPow2 20) = "4096" ∧
    fmtG6 ((F32.ofNat 4294967296).divPow2 20) = "4096" :=
  ⟨⟨by decide, by decide⟩,
   (C8_unit_conversions (sampleEnv 1) 11020 11020 0 sampleProp).2.1 8192 (by decide) (by decide),
   by decide, by decide, by decide, by decide⟩

/-- C8 (counterexample): 1,310,720 bytes are 1.25 times 1,048,576; the console shows `1` and the
file shows `1.25`.  1,234,567 kHz is shown as `1235` in the console and `1234.57` in the file. -/
theorem C8_counterexample :
    fmtF0 ((F32.ofNat 1310720).divPow2 20) = "1" ∧
    fmtG6 ((F32.ofNat 1310720).divPow2 20) = "1.25" ∧
    (Field.totalGlobalMemMBytes, "1") ∈ consoleArgs (deviceBlock (sampleEnv 1) 11020 11020 0
        { sampleProp with totalGlobalMem := 1310720 }) ∧
    (Field.totalGlobalMemMBytes, "1.25") ∈ csvArgs (deviceBlock (sampleEnv 1) 11020 11020 0
        { sampleProp with totalGlobalMem := 1310720 }) ∧
    fmtF0 (F32.ofInt 1234567).mul1em3 = "1235" ∧
    fmtG6 (F32.ofInt 1234567).mul1em3 = "1234.57" := by
  refine ⟨by decide, by decide, ?_, ?_, by decide, by decide⟩
  · have h := (float_args (sampleEnv 1) 11020 11020 0
      { sampleProp with totalGlobalMem := 1310720 }).1
    have e : fmtF0 ((F32.ofNat 1310720).divPow2 20) = "1" := by decide
    rw [← e]; exact h
  · have h := (float_args (sampleEnv 1) 11020 11020 0
      { sampleProp with totalGlobalMem := 1310720 }).2.1
    have e : fmtG6 ((F32.ofNat 1310720).divPow2 20) = "1.25" := by decide
    rw [← e]; exact h

/-- C9 (as amended): after a successful count query the program prints, right after the two
banner lines, the line `There are no available device(s) that support CUDA` when the count
is 0 and the line `Detected N CUDA Capable device(s)` otherwise; and when every snapshot
read by the render loop carries a compute mode in `[0,4]`, it then runs the render block
once for each device index `0, 1, ..., N-1` in increasing order. -/
theorem C9_count_line_and_blocks (env : Env) (csv0 : List String) (h : env.countStatus = 0) :
    (∃ rest, (afterLoop env csv0).stdout =
      [Out.text (env.argv0 ++ " Starting...\n\n"),
       Out.text " CUDA Device Query (Runtime API) version (CUDART static linking)\n\n",
       Out.text (if env.deviceCount = 0
          then "There are no available device(s) that support CUDA\n"
          else "Detected " ++ Nat.repr env.deviceCount ++ " CUDA Capable device(s)\n")]
        ++ rest) ∧
    (loopModesOk env →
      afterLoop env csv0 = (List.range env.deviceCount).foldl
        (fun s dev => renderDevice env dev s) (enumerate env (initialState csv0)) ∧
      (afterLoop env csv0).stdout =
        [Out.text (env.argv0 ++ " Starting...\n\n"),
         Out.text " CUDA Device Query (Runtime API) version (CUDART static linking)\n\n",
         Out.text (if env.deviceCount = 0
            then "There are no available device(s) that support CUDA\n"
            else "Detected " ++ Nat.repr env.deviceCount ++ " CUDA Capable device(s)\n")]
          ++ (List.range env.deviceCount).flatMap (fun dev => consoleOut (blockOf env dev)) ∧
      (main env csv0).rendered = List.range env.deviceCount) ∧
    (∃ rest, (main env csv0).stdout = (afterLoop env csv0).stdout ++ rest) := by
  refine ⟨?_, ?_, main_stdout env csv0⟩
  · obtain ⟨r, hr⟩ := renderAll_stdout env (List.range env.deviceCount)
      (enumerate env (initialState csv0))
    refine ⟨r, ?_⟩
    rw [afterLoop_eq env csv0, hr, enumerate_ok env csv0 h, fmtD_natCast]
  · intro hmodes
    have hf := afterLoop_frame env csv0 h hmodes
    have he := (renderAll_frame env (List.range env.deviceCount)
      (enumerate env (initialState csv0)) (enumerate_running env csv0 h)
      (fun d hd => hmodes d (List.mem_range.mp hd))).1
    refine ⟨by rw [afterLoop_eq env csv0, he], ?_, by rw [(main_sameFile env csv0).2, hf.2.1]⟩
    rw [hf.1, fmtD_natCast]

/-- C9 (witness): a run on two devices prints `Detected 2 CUDA Capable device(s)` after the
banner and renders device 0 and then device 1; a run on no device prints the line
`There are no available device(s) that support CUDA` after the banner and renders nothing. -/
theorem C9_count_line_and_blocks_witness :
    ((sampleEnv 2).countStatus = 0 ∧ loopModesOk (sampleEnv 2)) ∧
    (afterLoop (sampleEnv 2) []).stdout.take 3 =
      [Out.text "./deviceQuery Starting...\n\n",
       Out.text " CUDA Device Query (Runtime API) version (CUDART static linking)\n\n",
       Out.text "Detected 2 CUDA Capable device(s)\n"] ∧
    (main (sampleEnv 2) []).rendered = [0, 1] ∧
    (afterLoop (sampleEnv 0) []).stdout =
      [Out.text "./deviceQuery Starting...\n\n",
       Out.text " CUDA Device Query (Runtime API) version (CUDART static linking)\n\n",
       Out.text "There are no available device(s) that support CUDA\n"] ∧
    (main (sampleEnv 0) []).rendered = [] :=
  ⟨⟨rfl, sampleEnv_modesOk 2⟩,
    (congrArg (List.take 3)
      ((C9_count_line_and_blocks (sampleEnv 2) [] rfl).2.1 (sampleEnv_modesOk 2)).2.1).trans
      (by decide),
    ((C9_count_line_and_blocks (sampleEnv 2) [] rfl).2.1 (sampleEnv_modesOk 2)).2.2.trans
      (by decide),
    ((C9_count_line_and_blocks (sampleEnv 0) [] rfl).2.1 (sampleEnv_modesOk 0)).2.1.trans
      (by decide),
    ((C9_count_line_and_blocks (sampleEnv 0) [] rfl).2.1 (sampleEnv_modesOk 0)).2.2.trans
      (by decide)⟩

/-- C9 (counterexample): the count query succeeds with two devices and the snapshot of
device 0 carries the compute mode 6; the run prints the block of device 0 up to the compute
mode line, ends there, and never renders device 1. -/
theorem C9_counterexample :
    badModeEnv.countStatus = 0 ∧ badModeEnv.deviceCount = 2 ∧
    (main badModeEnv []).rendered = [0] ∧
    (main badModeEnv []).rendered ≠ List.range badModeEnv.deviceCount ∧
    (main badModeEnv []).outcome = some Outcome.undefinedBehaviour := by
  have hr : (main badModeEnv []).rendered = [0] := by
    rw [(main_sameFile badModeEnv []).2, badModeEnv_loop.1]
  refine ⟨rfl, rfl, hr, ?_, main_badMode badModeEnv [] rfl badModeEnv_modes⟩
  rw [hr]
  decide

/-- C10: for every device count up to 64, after each number `t` of iterations of the
filtering loop both arrays still have their 64 slots, `gpu_p2p_count ≤ t`, every stored
`gpuid` entry is a device index below `t` whose `prop` slot is filled, the stored entries
are strictly increasing, and no access has left the arrays; at the end of the loop two
stored entries are equal exactly when their positions are equal; and the whole phase never
accesses a slot outside the arrays or a slot that was not filled. -/
theorem C10_peer_arrays_in_bounds (env : Env) (s : State) (hs : s.outcome = none)
    (h64 : env.deviceCount ≤ 64) :
    (∀ t, t ≤ env.deviceCount →
      FilterInv t (forLoop env.deviceCount (filterBody env) t 0 (peerInit s))) ∧
    (∀ i j, i < (filterLoop env s).gpu_p2p_count → j < (filterLoop env s).gpu_p2p_count →
      (readSlot (filterLoop env s).gpuid i = readSlot (filterLoop env s).gpuid j ↔ i = j)) ∧
    (peerPhase env s).outcome ≠ some Outcome.undefinedBehaviour := by
  have hinv : ∀ t, t ≤ env.deviceCount →
      FilterInv t (forLoop env.deviceCount (filterBody env) t 0 (peerInit s)) := by
    intro t ht
    rw [forLoop_upTo _ _ _ t ht]
    exact filterInv_fold env s hs t (by omega)
  refine ⟨hinv, ?_, ?_⟩
  · intro i j hi hj
    exact filterInv_distinct env.deviceCount _ (hinv env.deviceCount (Nat.le_refl _)) i j hi hj
  · rcases peerPhase_outcome env s hs h64 with ⟨ho, _⟩ | ⟨ho, _⟩ <;> rw [ho] <;> simp

/-- C10 (witness): the filtering loop of a system of three devices. -/
theorem C10_peer_arrays_in_bounds_witness :
    ((initialState []).outcome = none ∧ (sampleEnv 3).deviceCount ≤ 64) ∧
    (peerPhase (sampleEnv 3) (initialState [])).outcome ≠ some Outcome.undefinedBehaviour :=
  ⟨⟨rfl, by decide⟩,
    (C10_peer_arrays_in_bounds (sampleEnv 3) (initialState []) rfl (by decide)).2.2⟩

end DeviceQuery
